import Mathlib

/-!
Shallow embedding of the MIBiG v3→v4 converter (`python-mibig`) and its shared
self-validating entity model, for checking the natural-language specification
against the code.

Conventions used throughout:
* Python `None` is modelled as `Option.none`; keyword defaults mirror the source.
* A Python exception is a `PyError`: `ValidationError` carries the collected
  `(field, message)` pairs, while `KeyError` / `ValueError` / `IndexError` /
  `AssertionError` model the raw interpreter errors the code can raise.
* Character classes written with `\d`, `\w`, `isalnum` etc. are modelled over
  ASCII; the regex anchor pair `^...$` of `re.match` is modelled by
  `pyDollarMatch`, which (like Python's `$`) also accepts one trailing newline.
-/

namespace Mibig

/-- One collected validation violation, mirroring `ValidationErrorInfo(field, message)`. -/
structure ValidationErrorInfo where
  field : String
  message : String
deriving DecidableEq, Repr

/-- The errors the embedded code can signal: `ValidationError` with its list of
violations, plus the raw Python errors (`KeyError`, `ValueError`, `IndexError`,
`AssertionError`) raised by dictionary lookups, unpacking, indexing and asserts. -/
inductive PyError where
  | validation (errors : List ValidationErrorInfo)
  | keyError (key : String)
  | valueError (msg : String)
  | indexError
  | assertionError
  | typeError (msg : String)
deriving DecidableEq, Repr

/-- `QualityLevel`, mirroring the enum ordering `QUESTIONABLE < LOW < MEDIUM < HIGH`. -/
inductive QualityLevel where
  | questionable
  | low
  | medium
  | high
deriving DecidableEq, Repr

/-- Position of a quality level in the enum declaration order, mirroring
`values.index(self)` used by `QualityLevel.__lt__`. -/
def QualityLevel.idx : QualityLevel → Nat
  | .questionable => 0
  | .low => 1
  | .medium => 2
  | .high => 3

/-- The total order on quality levels from `QualityLevel.__lt__`. -/
def QualityLevel.ltQ (a b : QualityLevel) : Prop := a.idx < b.idx

instance : Decidable (QualityLevel.ltQ a b) := by
  unfold QualityLevel.ltQ; infer_instance

/-- Equality of `Except` results is decidable componentwise (needed to settle
concrete construction outcomes by evaluation). -/
instance {ε α : Type} [DecidableEq ε] [DecidableEq α] : DecidableEq (Except ε α)
  | .ok a, .ok b =>
    if h : a = b then .isTrue (by rw [h]) else .isFalse (fun he => by cases he; exact h rfl)
  | .ok _, .error _ => .isFalse (fun h => by cases h)
  | .error _, .ok _ => .isFalse (fun h => by cases h)
  | .error e, .error f =>
    if h : e = f then .isTrue (by rw [h]) else .isFalse (fun he => by cases he; exact h rfl)

/-- `str.startswith`, over character lists (the builtin `String.startsWith`
does not reduce inside the kernel). -/
def strStartsWith (s pre : String) : Bool := pre.toList.isPrefixOf s.toList

/-- `str.endswith`, over character lists. -/
def strEndsWith (s suf : String) : Bool := suf.toList.isSuffixOf s.toList

/-- Drop the final character (used for the `$`-before-trailing-newline rule). -/
def dropLastChar (s : String) : String := String.mk s.toList.dropLast

/-- `str.split(sep)` for a one-character separator, over character lists:
`"".split(sep) == [""]` and empty pieces are kept. -/
def splitOnChar (sep : Char) : List Char → List (List Char)
  | [] => [[]]
  | c :: cs =>
    let rest := splitOnChar sep cs
    if c = sep then [] :: rest
    else
      match rest with
      | r :: rs => (c :: r) :: rs
      | [] => [[c]]

/-- `str.split(sep)` producing strings. -/
def pySplit (s : String) (sep : Char) : List String :=
  (splitOnChar sep s.toList).map String.mk

/-- Python `str.isdigit` restricted to ASCII: non-empty and all digits. -/
def pyIsDigit (s : String) : Bool := !s.toList.isEmpty && s.toList.all Char.isDigit

/-- Python `str.isalnum` restricted to ASCII: non-empty and all alphanumeric. -/
def pyIsAlnum (s : String) : Bool := !s.toList.isEmpty && s.toList.all Char.isAlphanum

/-- Python `str.lower` restricted to ASCII case folding. -/
def pyLower (s : String) : String := String.mk (s.toList.map Char.toLower)

/-- `re.match` against a `^core$` pattern: Python's `$` also matches just
before a single newline at the very end of the string. -/
def pyDollarMatch (core : String → Bool) (s : String) : Bool :=
  core s || ((s.toList.getLast? == some '\n') && core (dropLastChar s))

/-- The character class `[-\._;()/:a-zA-Z0-9]` of the DOI pattern. -/
def doiClassChar (c : Char) : Bool :=
  c = '-' || c = '.' || c = '_' || c = ';' || c = '(' || c = ')' || c = '/' || c = ':'
    || c.isAlphanum

/-- Body of the pubmed pattern `^(\d+)$`. -/
def pubmedCore (s : String) : Bool := pyIsDigit s

/-- Body of the DOI pattern `^10\.\d{4,9}/[-\._;()/:a-zA-Z0-9]+$`.  The digit
run is followed by `/`, which is not a digit, so greedy matching is forced to
stop at the first non-digit; 10 or more digits before the slash can never
match. -/
def doiCore (s : String) : Bool :=
  if strStartsWith s "10." then
    let t := s.toList.drop 3
    let run := t.takeWhile Char.isDigit
    let rest := t.dropWhile Char.isDigit
    decide (4 ≤ run.length) && decide (run.length ≤ 9) &&
      (match rest with
       | '/' :: tail => !tail.isEmpty && tail.all doiClassChar
       | _ => false)
  else false

/-- Body of the patent pattern `^(.+)$`: at least one character, and `.` does
not match a newline. -/
def patentCore (s : String) : Bool := !s.toList.isEmpty && s.toList.all (· ≠ '\n')

/-- First character class of the URL pattern, `[-a-zA-Z0-9@:%._\+~#=]`. -/
def urlClass1 (c : Char) : Bool :=
  c.isAlphanum || c = '-' || c = '@' || c = ':' || c = '%' || c = '.' || c = '_'
    || c = '+' || c = '~' || c = '#' || c = '='

/-- Trailing character class of the URL pattern, `[-a-zA-Z0-9@:%_\+.~#?&//=]`. -/
def urlClass2 (c : Char) : Bool :=
  c.isAlphanum || c = '-' || c = '@' || c = ':' || c = '%' || c = '_' || c = '+'
    || c = '.' || c = '~' || c = '#' || c = '?' || c = '&' || c = '/' || c = '='

/-- A regex word character, for the `\b` boundary in the URL pattern. -/
def regexWordChar (c : Char) : Bool := c.isAlphanum || c = '_'

/-- Matches `[-a-zA-Z0-9@:%._\+~#=]{2,256}\.[a-z]{2,6}\b([-a-zA-Z0-9@:%_\+.~#?&//=]*)`
against the remaining characters, by searching over the possible split points
(the existential-split semantics coincides with regex backtracking because all
pieces are plain character classes). -/
def urlTail (l : List Char) : Bool :=
  (List.range (l.length + 1)).any fun k =>
    decide (2 ≤ k) && decide (k ≤ 256) && (l.take k).all urlClass1 &&
      (match l.drop k with
       | '.' :: rest =>
         (List.range (rest.length + 1)).any fun m =>
           decide (2 ≤ m) && decide (m ≤ 6) &&
             (rest.take m).all (fun c => 'a' ≤ c && c ≤ 'z') &&
             (let tail := rest.drop m
              (match tail with
               | [] => true
               | c :: _ => !regexWordChar c) && tail.all urlClass2)
       | _ => false)

/-- Body of the URL pattern
`^https?:\/\/(www\\.)?[-a-zA-Z0-9@:%._\+~#=]{2,256}\.[a-z]{2,6}\b([-a-zA-Z0-9@:%_\+.~#?&//=]*)$`.
Note the source's raw string contains `www\\.`, i.e. regex-escaped literal
backslash followed by `.` (any char), so the optional group matches
`www\<any char>` — reproduced as written. -/
def urlCore (s : String) : Bool :=
  let alts : List (List Char) :=
    (if strStartsWith s "http://" then [s.toList.drop 7] else []) ++
      (if strStartsWith s "https://" then [s.toList.drop 8] else [])
  alts.any fun t =>
    urlTail t ||
      (match t with
       | 'w' :: 'w' :: 'w' :: '\\' :: _ :: rest => urlTail rest
       | _ => false)

/-- `Citation`: a `(database, value)` pair.  The process-wide interning cache
`_UNIQUE_CITATIONS` only shares instances; equality is structural, as for the
Python `__eq__`/`__hash__` on `(database, value)`. -/
structure Citation where
  database : String
  value : String
deriving DecidableEq, Repr

/-- The keys of `Citation.VALID_PATTERNS`. -/
def citationDatabases : List String := ["pubmed", "doi", "patent", "url"]

/-- `re.match(VALID_PATTERNS[db], value)` for each of the four databases. -/
def citationPatternOk (db v : String) : Bool :=
  if db = "pubmed" then pyDollarMatch pubmedCore v
  else if db = "doi" then pyDollarMatch doiCore v
  else if db = "patent" then pyDollarMatch patentCore v
  else if db = "url" then pyDollarMatch urlCore v
  else false

/-- `Citation.validate`. -/
def Citation.validate (c : Citation) : List ValidationErrorInfo :=
  if c.database ∉ citationDatabases then
    [⟨"citation", s!"Invalid database type {c.database}"⟩]
  else if !citationPatternOk c.database c.value then
    [⟨"citation", s!"Invalid value {c.value} for database {c.database}"⟩]
  else []

/-- `Citation.__init__` with `validate=True`. -/
def Citation.construct (database value : String) : Except PyError Citation :=
  let c : Citation := ⟨database, value⟩
  match c.validate with
  | [] => .ok c
  | errs => .error (.validation errs)

/-- `Citation.to_json`: serializes as `"database:value"`. -/
def Citation.toJson (c : Citation) : String := c.database ++ ":" ++ c.value

/-- Split a character list at the first occurrence of `:`;
models `raw.split(":", 1)` (two pieces, or an unpacking `ValueError` if absent). -/
def splitFirstColon : List Char → Option (List Char × List Char)
  | [] => none
  | c :: rest =>
    if c = ':' then some ([], rest)
    else
      match splitFirstColon rest with
      | none => none
      | some (a, b) => some (c :: a, b)

/-- `Citation.from_json`: split on the first `:` and construct with validation. -/
def Citation.fromJson (raw : String) : Except PyError Citation :=
  match splitFirstColon raw.toList with
  | none => .error (.valueError "not enough values to unpack")
  | some (db, v) => Citation.construct (String.mk db) (String.mk v)

/-- `SubmitterID`: exactly 24 alphanumeric characters. -/
structure SubmitterID where
  inner : String
deriving DecidableEq, Repr

/-- `SubmitterID.validate`. -/
def SubmitterID.validate (s : SubmitterID) : List ValidationErrorInfo :=
  if s.inner.length ≠ 24 then [⟨"submitter", "invalid length"⟩]
  else if !pyIsAlnum s.inner then [⟨"submitter", "invalid characters"⟩]
  else []

/-- `SubmitterID.__post_init__` with validation enabled. -/
def SubmitterID.construct (s : String) : Except PyError SubmitterID :=
  let v : SubmitterID := ⟨s⟩
  match v.validate with
  | [] => .ok v
  | errs => .error (.validation errs)

/-- `SubmitterID.to_json`. -/
def SubmitterID.toJson (s : SubmitterID) : String := s.inner

/-- `SubmitterID.from_json`. -/
def SubmitterID.fromJson (raw : String) : Except PyError SubmitterID :=
  SubmitterID.construct raw

/-- The fixed system sentinel submitter, 24 `A` characters. -/
def mibigUserStr : String := "AAAAAAAAAAAAAAAAAAAAAAAA"

/-- `ReleaseVersion`: dotted numeric string or the sentinel `"next"`. -/
structure ReleaseVersion where
  inner : String
deriving DecidableEq, Repr

/-- `ReleaseVersion.validate`. -/
def ReleaseVersion.validate (v : ReleaseVersion) : List ValidationErrorInfo :=
  if v.inner = "next" then []
  else if (pySplit v.inner '.').all pyIsDigit then []
  else [⟨"release version", s!"invalid version {v.inner}"⟩]

/-- `ReleaseVersion.__init__` with validation enabled. -/
def ReleaseVersion.construct (s : String) : Except PyError ReleaseVersion :=
  let v : ReleaseVersion := ⟨s⟩
  match v.validate with
  | [] => .ok v
  | errs => .error (.validation errs)

/-- `ReleaseVersion.to_json`. -/
def ReleaseVersion.toJson (v : ReleaseVersion) : String := v.inner

/-- `ReleaseVersion.from_json`. -/
def ReleaseVersion.fromJson (raw : String) : Except PyError ReleaseVersion :=
  ReleaseVersion.construct raw

/-- The read-only external sequence record collaborator: only the parts the
embedded validations consult (`seq_len`, `get_cds`). -/
structure CDS where
  translationLength : Int
deriving DecidableEq, Repr

/-- External record service: `seq_len` plus a gene-name → CDS index. -/
structure Record where
  seqLen : Int
  cdsIndex : List (String × CDS)
deriving DecidableEq, Repr

/-- `Record.get_cds`. -/
def Record.getCds (r : Record) (name : String) : Option CDS :=
  (r.cdsIndex.find? (fun p => p.1 = name)).map Prod.snd

/-- `Location`: integer interval.  The Python attributes are `begin`/`end`
(Lean keywords), renamed `fromCoord`/`toCoord` after the wire keys
`"from"`/`"to"`. -/
structure Location where
  fromCoord : Int
  toCoord : Int
deriving DecidableEq, Repr

/-- `Location.validate(record=..., cds=..., quality=...)`. -/
def Location.validate (loc : Location) (record : Option Record := none)
    (cds : Option CDS := none) (quality : Option QualityLevel := none) :
    List ValidationErrorInfo :=
  (if loc.fromCoord < 0 ∧ quality ≠ some .questionable then
    [⟨"Location.from", "From coordinate must be positive"⟩] else []) ++
  (if loc.toCoord < 0 ∧ quality ≠ some .questionable then
    [⟨"Location,to", "To coordinate must be positive"⟩] else []) ++
  (if loc.fromCoord > loc.toCoord then
    [⟨"Location",
      s!"Location.from {loc.fromCoord} must be less than Location.to {loc.toCoord}"⟩]
   else []) ++
  (match record with
   | some r =>
     if quality ≠ some .questionable then
       (if loc.fromCoord > r.seqLen then
         [⟨"Location.from", "Location.from must be less than the sequence length"⟩]
        else []) ++
       (if loc.toCoord > r.seqLen then
         [⟨"Location.to", "Location.to must be less than the sequence length"⟩]
        else [])
     else []
   | none => []) ++
  (match cds with
   | some c =>
     if loc.toCoord > c.translationLength then
       [⟨"Location.to", "Location.to must be less than the translation length"⟩]
     else []
   | none => [])

/-- `Location.__init__` with `validate=True` and ambient keyword context. -/
def Location.construct (b e : Int) (record : Option Record := none)
    (cds : Option CDS := none) (quality : Option QualityLevel := none) :
    Except PyError Location :=
  let loc : Location := ⟨b, e⟩
  match loc.validate record cds quality with
  | [] => .ok loc
  | errs => .error (.validation errs)

/-- Wire form of a `Location`: the dict `{"from": ..., "to": ...}`. -/
structure LocationJson where
  fromKey : Int
  toKey : Int
deriving DecidableEq, Repr

/-- `Location.to_json`. -/
def Location.toJson (loc : Location) : LocationJson := ⟨loc.fromCoord, loc.toCoord⟩

/-- `Location.from_json` (the integer `isinstance` checks hold by typing);
`**kwargs` threads the ambient quality context into construction. -/
def Location.fromJson (raw : LocationJson) (quality : Option QualityLevel := none) :
    Except PyError Location :=
  Location.construct raw.fromKey raw.toKey none none quality

/-- The `INVALID_CHARS` character class from `mibig.utils`:
`[!?,;:=+*&^%$#@ \t\n\r\\\/\[\]{}()<>|~`'\"]`. -/
def invalidChar (c : Char) : Bool :=
  c = '!' || c = '?' || c = ',' || c = ';' || c = ':' || c = '=' || c = '+' ||
  c = '*' || c = '&' || c = '^' || c = '%' || c = '$' || c = '#' || c = '@' ||
  c = ' ' || c = '\t' || c = '\n' || c = '\r' || c = '\\' || c = '/' ||
  c = '[' || c = ']' || c = '\x7b' || c = '\x7d' || c = '(' || c = ')' ||
  c = '<' || c = '>' || c = '|' || c = '~' || c = '`' || c = '\'' || c = '"'

/-- `NovelGeneId.validate` / `GeneId.validate` without the questionable-tier
multi-locus special case and with an optional record to resolve against
(`GeneId` adds the record lookup on top of `NovelGeneId`).  The embedded
converters construct `GeneId` without a quality argument, so the
`quality == QUESTIONABLE` multi-locus branch never triggers there and is
omitted from this model. -/
def geneIdValidate (inner : String) (record : Option Record := none) :
    List ValidationErrorInfo :=
  (if inner.toList.isEmpty then [⟨"gene_id", "Gene id cannot be empty"⟩] else []) ++
  (if inner.toList.any invalidChar then
    [⟨"gene_id", s!"Gene id {inner} contains invalid characters"⟩] else []) ++
  (match record with
   | some r =>
     if r.getCds inner = none then
       [⟨"gene_id", s!"Gene id {inner} not found in record"⟩]
     else []
   | none => [])

/-- `Smiles`: chemical structure string with a restricted character class. -/
structure Smiles where
  value : String
deriving DecidableEq, Repr

/-- The SMILES character class `[\[\]a-zA-Z0-9\@()=\/\\#+.%*-]`. -/
def smilesChar (c : Char) : Bool :=
  c = '[' || c = ']' || c.isAlphanum || c = '@' || c = '(' || c = ')' ||
  c = '=' || c = '/' || c = '\\' || c = '#' || c = '+' || c = '.' ||
  c = '%' || c = '*' || c = '-'

/-- `Smiles.validate`.  The pattern `^[...]+$` is unanchored-greedy over the
class; as elsewhere `$` also accepts a single trailing newline. -/
def Smiles.validate (s : Smiles) : List ValidationErrorInfo :=
  if pyDollarMatch (fun t => !t.toList.isEmpty && t.toList.all smilesChar) s.value then []
  else [⟨"Smiles", s!"Invalid value {s.value}"⟩]

/-- `Smiles.__init__` with validation enabled. -/
def Smiles.construct (value : String) : Except PyError Smiles :=
  let s : Smiles := ⟨value⟩
  match s.validate with
  | [] => .ok s
  | errs => .error (.validation errs)

/-- `validate_citation_list(citations, field, quality)`. -/
def validateCitationList (citations : List Citation) (field : String)
    (quality : Option QualityLevel) : List ValidationErrorInfo :=
  (if quality ≠ some .questionable ∧ citations = [] then
    [⟨field, "citation list cannot be empty at this quality level"⟩]
   else []) ++
  citations.flatMap Citation.validate

/-- Models `list(set(references))` from `Evidence.__init__`: the stored list is
duplicate-free and carries exactly the members of the input.  CPython's
iteration order over the set is hash-table dependent; this model fixes one
canonical order (`List.dedup`). -/
def pySetList (l : List Citation) : List Citation := l.dedup

/-- Base `Evidence` from `shared/common.py`: `(method, references)` where the
constructor replaces `references` with its duplicate-free set. -/
structure Evidence where
  method : String
  references : List Citation
deriving DecidableEq, Repr

/-- `Evidence.VALID_METHODS` of the base class. -/
def evidenceValidMethods : List String := ["Sequence-based prediction"]

/-- `Evidence.validate(quality=...)`. -/
def Evidence.validate (ev : Evidence) (quality : Option QualityLevel := none) :
    List ValidationErrorInfo :=
  (if ev.method ∉ evidenceValidMethods then
    [⟨"Evidence.method", s!"Invalid method {ev.method}"⟩] else []) ++
  (if ev.method ≠ "Sequence-based prediction" then
    validateCitationList ev.references "Evidence.references" quality
   else [])

/-- `Evidence.__init__(method, references, validate, quality=...)`: stores the
deduplicated reference set, then validates unless suppressed. -/
def Evidence.construct (method : String) (references : List Citation)
    (validateFlag : Bool := true) (quality : Option QualityLevel := none) :
    Except PyError Evidence :=
  let ev : Evidence := ⟨method, pySetList references⟩
  if !validateFlag then .ok ev
  else
    match ev.validate quality with
    | [] => .ok ev
    | errs => .error (.validation errs)

/-- Wire form of an `Evidence`: dict with mandatory `"method"` and optional
`"references"` key (absent vs present is significant). -/
structure EvidenceJson where
  method : String
  references : Option (List String)
deriving DecidableEq, Repr

/-- `Evidence.to_json`: the `"references"` key is emitted only when the stored
list is non-empty. -/
def Evidence.toJson (ev : Evidence) : EvidenceJson :=
  ⟨ev.method, if ev.references = [] then none else some (ev.references.map Citation.toJson)⟩

/-- `Evidence.from_json`: decodes each reference (`raw.get("references", [])`),
then constructs with validation under the ambient quality context. -/
def Evidence.fromJson (raw : EvidenceJson) (quality : Option QualityLevel := none) :
    Except PyError Evidence := do
  let refs ← (raw.references.getD []).mapM Citation.fromJson
  Evidence.construct raw.method refs true quality

/-- `SubstrateEvidence` (`shared/mibig/common.py`): same shape as the base
`Evidence` but with a 17-method vocabulary and NO deduplication of the
reference list in its constructor. -/
structure SubstrateEvidence where
  method : String
  references : List Citation
deriving DecidableEq, Repr

/-- `SubstrateEvidence.VALID_METHODS`. -/
def substrateEvidenceValidMethods : List String :=
  ["Activity assay", "ACVS assay", "ATP-PPi exchange assay", "Enzyme-coupled assay",
   "Feeding study", "Heterologous expression", "Homology", "HPLC",
   "In-vitro experiments", "Knock-out studies", "Mass spectrometry", "NMR",
   "Radio labelling", "Sequence-based prediction", "Steady-state kinetics",
   "Structure-based inference", "X-ray crystallography"]

/-- `SubstrateEvidence.validate(quality=...)`. -/
def SubstrateEvidence.validate (ev : SubstrateEvidence)
    (quality : Option QualityLevel := none) : List ValidationErrorInfo :=
  (if ev.method ∉ substrateEvidenceValidMethods then
    [⟨"SubstrateEvidence.method", s!"Invalid method {ev.method}"⟩] else []) ++
  (if ev.method ≠ "Sequence-based prediction" then
    validateCitationList ev.references "SubstrateEvidence.references" quality
   else [])

/-- `SubstrateEvidence.__init__` with validation enabled. -/
def SubstrateEvidence.construct (method : String) (references : List Citation)
    (quality : Option QualityLevel := none) : Except PyError SubstrateEvidence :=
  let ev : SubstrateEvidence := ⟨method, references⟩
  match ev.validate quality with
  | [] => .ok ev
  | errs => .error (.validation errs)

/-- The hard-coded `PROTEINOGENIC_SUBSTRATES` table mapping the 20 standard
amino acid names to SMILES strings. -/
def PROTEINOGENIC_SUBSTRATES : List (String × String) :=
  [("alanine", "NC(C)C(=O)O"),
   ("arginine", "NC(CCCNC(N)=N)C(=O)O"),
   ("asparagine", "NC(CC(=O)N)C(=O)O"),
   ("aspartic acid", "NC(CC(=O)O)C(=O)O"),
   ("cysteine", "NC(CS)C(=O)O"),
   ("glutamine", "NC(CCC(=O)N)C(=O)O"),
   ("glutamic acid", "NC(CCC(=O)O)C(=O)O"),
   ("glycine", "NCC(=O)O"),
   ("histidine", "NC(CC1=CNC=N1)C(=O)O"),
   ("isoleucine", "NC(C(C)CC)C(=O)O"),
   ("leucine", "NC(CC(C)C)C(=O)O"),
   ("lysine", "NC(CCCCN)C(=O)O"),
   ("methionine", "NC(CCSC)C(=O)O"),
   ("phenylalanine", "NC(Cc1ccccc1)C(=O)O"),
   ("proline", "N1C(CCC1)C(=O)O"),
   ("serine", "NC(CO)C(=O)O"),
   ("threonine", "NC(C(O)C)C(=O)O"),
   ("tryptophan", "NC(CC1=CNc2c1cccc2)C(=O)O"),
   ("tyrosine", "NC(Cc1ccc(O)cc1)C(=O)O"),
   ("valine", "NC(C(C)C)C(=O)O")]

/-- Dictionary lookup `PROTEINOGENIC_SUBSTRATES[name]` (before lowering). -/
def protLookup (name : String) : Option String :=
  (PROTEINOGENIC_SUBSTRATES.find? (fun p => p.1 = name)).map Prod.snd

/-- `AdenylationSubstrate`: substrate of an adenylation domain. -/
structure AdenylationSubstrate where
  name : String
  proteinogenic : Bool
  struc : Option Smiles
deriving DecidableEq, Repr

/-- `AdenylationSubstrate.validate`. -/
def AdenylationSubstrate.validate (sub : AdenylationSubstrate) :
    List ValidationErrorInfo :=
  (if sub.name.toList.isEmpty then
    [⟨"AdenylationSubstrate.name", "Missing name"⟩] else []) ++
  (if sub.proteinogenic ∧ protLookup (pyLower sub.name) = none then
    [⟨"AdenylationSubstrate.name", s!"Invalid proteinogenic substrate {sub.name}"⟩]
   else []) ++
  (match sub.struc with
   | some s => s.validate
   | none => [])

/-- `AdenylationSubstrate.__init__`: when `proteinogenic` is set and no
structure is supplied, the constructor looks up
`PROTEINOGENIC_SUBSTRATES[self.name.lower()]` BEFORE the `validate` flag is
inspected — a missing key is a raw `KeyError`, not a `ValidationError`, and it
fires even when validation is suppressed. -/
def AdenylationSubstrate.construct (name : String) (proteinogenic : Bool)
    (struc : Option Smiles) (validateFlag : Bool := true) :
    Except PyError AdenylationSubstrate := do
  let struc ←
    if proteinogenic ∧ struc = none then
      match protLookup (pyLower name) with
      | none => Except.error (PyError.keyError (pyLower name))
      | some smi => do
        let s ← Smiles.construct smi
        pure (some s)
    else pure struc
  let sub : AdenylationSubstrate := ⟨name, proteinogenic, struc⟩
  if !validateFlag then return sub
  match sub.validate with
  | [] => return sub
  | errs => Except.error (PyError.validation errs)

/-- `Adenylation` payload: substrates, evidence, precursor biosynthesis genes
and the optional `inactive` flag. -/
structure Adenylation where
  substrates : List AdenylationSubstrate
  evidence : List SubstrateEvidence
  precursorBiosynthesis : List String
  inactive : Option Bool
deriving DecidableEq, Repr

/-- `Adenylation.validate(quality=...)`: substrate/gene/evidence sub-validation,
the tier-gated evidence-required-for-substrates rule, and the inactive rules. -/
def Adenylation.validate (a : Adenylation) (quality : Option QualityLevel := none) :
    List ValidationErrorInfo :=
  a.substrates.flatMap AdenylationSubstrate.validate ++
  a.precursorBiosynthesis.flatMap (fun g => geneIdValidate g none) ++
  a.evidence.flatMap (fun ev => ev.validate quality) ++
  (if a.substrates ≠ [] ∧ a.evidence = [] ∧ quality ≠ some .questionable then
    [⟨"Adenylation.evidence", "Evidence is required for adenylation"⟩]
   else []) ++
  (if a.inactive = some true then
    (if a.substrates ≠ [] then
      [⟨"Adenylation.inactive", "Inactive adenylation domains cannot have a substrate"⟩]
     else []) ++
    (if a.evidence = [] then
      [⟨"Adenylation.evidence", "Evidence is required for inactive adenylation domains"⟩]
     else [])
   else [])

/-- `Adenylation.__init__` with validation enabled. -/
def Adenylation.construct (substrates : List AdenylationSubstrate)
    (evidence : List SubstrateEvidence) (precursorBiosynthesis : List String)
    (inactive : Option Bool := none) (quality : Option QualityLevel := none) :
    Except PyError Adenylation :=
  let a : Adenylation := ⟨substrates, evidence, precursorBiosynthesis, inactive⟩
  match a.validate quality with
  | [] => .ok a
  | errs => .error (.validation errs)

/-- The closed `DomainType` tag enumeration. -/
inductive DomainType where
  | acyltransferase | adenylation | aminotransferase | ampBinding | branching
  | carrier | condensation | cyclase | dehydratase | enoylreductase | epimerase
  | hydroxylase | ketoreductase | ketosynthase | ligase | methyltransferase
  | other | oxidase | productTemplate | thioesterase | thioreductase
deriving DecidableEq, Repr

/-- `Carrier` payload (`domains/carrier.py`). -/
structure Carrier where
  subtype : Option String
  betaBranching : Option Bool
deriving DecidableEq, Repr

/-- `Carrier.VALID_SUBTYPES`. -/
def carrierValidSubtypes : List String := ["ACP", "PCP"]

/-- `Carrier.validate` (the subtype check only fires for a truthy subtype). -/
def Carrier.validate (c : Carrier) : List ValidationErrorInfo :=
  match c.subtype with
  | some s =>
    if s ≠ "" ∧ s ∉ carrierValidSubtypes then
      [⟨"Carrier.subtype", s!"Invalid subtype: {s}"⟩]
    else []
  | none => []

/-- `Carrier.__init__` with validation enabled. -/
def Carrier.construct (subtype : Option String) (betaBranching : Option Bool) :
    Except PyError Carrier :=
  let c : Carrier := ⟨subtype, betaBranching⟩
  match c.validate with
  | [] => .ok c
  | errs => .error (.validation errs)

/-- `Condensation` payload (`domains/condensation.py`). -/
structure Condensation where
  subtype : Option String
  references : List Citation
deriving DecidableEq, Repr

/-- `Condensation.VALID_SUBTYPES`. -/
def condensationValidSubtypes : List String :=
  ["Dual", "Starter", "LCL", "DCL", "Ester bond-forming", "Heterocyclization"]

/-- `Condensation.validate(**kwargs)`: subtype vocabulary plus an UNCONDITIONAL
citation-list validation (which reports an empty reference list whenever the
quality context is not QUESTIONABLE — including when no quality was passed). -/
def Condensation.validate (c : Condensation) (quality : Option QualityLevel := none) :
    List ValidationErrorInfo :=
  (match c.subtype with
   | some s =>
     if s ≠ "" ∧ s ∉ condensationValidSubtypes then
       [⟨"Condensation.subtype", s!"Invalid subtype: {s}"⟩]
     else []
   | none => []) ++
  validateCitationList c.references "Condensation.references" quality

/-- `Condensation.__init__` with validation enabled. -/
def Condensation.construct (subtype : Option String) (references : List Citation)
    (quality : Option QualityLevel := none) : Except PyError Condensation :=
  let c : Condensation := ⟨subtype, references⟩
  match c.validate quality with
  | [] => .ok c
  | errs => .error (.validation errs)

/-- `Methyltransferase` payload (`domains/methyltransferase.py`). -/
structure Methyltransferase where
  subtype : Option String
  details : Option String
deriving DecidableEq, Repr

/-- `Methyltransferase.VALID_SUBTYPES`. -/
def methyltransferaseValidSubtypes : List String := ["C", "N", "O", "other"]

/-- `Methyltransferase.validate`. -/
def Methyltransferase.validate (m : Methyltransferase) : List ValidationErrorInfo :=
  (match m.subtype with
   | some s =>
     if s ≠ "" ∧ s ∉ methyltransferaseValidSubtypes then
       [⟨"Methyltransferase.subtype", s!"Invalid subtype: {s}"⟩]
     else []
   | none => []) ++
  (if m.subtype = some "other" ∧ (m.details = none ∨ m.details = some "") then
    [⟨"Methyltransferase.details", "Missing required details for subtype other"⟩]
   else [])

/-- `Methyltransferase.__init__` with validation enabled. -/
def Methyltransferase.construct (subtype details : Option String) :
    Except PyError Methyltransferase :=
  let m : Methyltransferase := ⟨subtype, details⟩
  match m.validate with
  | [] => .ok m
  | errs => .error (.validation errs)

/-- `Ligase` payload (`domains/ligase.py`). -/
structure Ligase where
  substrates : List Smiles
  evidence : List SubstrateEvidence
deriving DecidableEq, Repr

/-- `Ligase.validate(quality=...)`. -/
def Ligase.validate (l : Ligase) (quality : Option QualityLevel := none) :
    List ValidationErrorInfo :=
  l.substrates.flatMap Smiles.validate ++
  (if quality ≠ some .questionable ∧ l.substrates ≠ [] ∧ l.evidence = [] then
    [⟨"Ligase", "Ligase has substrates but no evidence"⟩]
   else []) ++
  l.evidence.flatMap (fun e => e.validate none)

/-- `Ligase.__init__` with validation enabled. -/
def Ligase.construct (substrates : List Smiles) (evidence : List SubstrateEvidence)
    (quality : Option QualityLevel := none) : Except PyError Ligase :=
  let l : Ligase := ⟨substrates, evidence⟩
  match l.validate quality with
  | [] => .ok l
  | errs => .error (.validation errs)

/-- `Thioesterase` payload (`domains/thioesterase.py`). -/
structure Thioesterase where
  subtype : Option String
deriving DecidableEq, Repr

/-- `Thioesterase.validate`. -/
def Thioesterase.validate (t : Thioesterase) : List ValidationErrorInfo :=
  match t.subtype with
  | some s =>
    if s ≠ "" ∧ s ∉ ["Type I", "Type II"] then
      [⟨"Thioesterase.subtype", s!"Invalid subtype: {s}"⟩]
    else []
  | none => []

/-- Domain payload variants used by the embedded conversions.  `epimerase`,
`hydroxylase` and `oxidase` are field-less: the present `epimerase.py` has no
attributes, and `hydroxylase.py`/`oxidase.py` are absent from `src/`
(the spec describes both as plain tag-only payloads, so they are modelled
field-less with trivially succeeding construction). -/
inductive DomainInfo where
  | adenylation (a : Adenylation)
  | carrier (c : Carrier)
  | condensation (c : Condensation)
  | epimerase
  | hydroxylase
  | ligase (l : Ligase)
  | methyltransferase (m : Methyltransferase)
  | oxidase
  | thioesterase (t : Thioesterase)
deriving DecidableEq, Repr

/-- `Domain`: a catalytic unit `(domain_type, gene, location, extra_info)`. -/
structure Domain where
  domainType : DomainType
  gene : String
  location : Location
  extraInfo : DomainInfo
deriving DecidableEq, Repr

/-- `Domain.validate(record=..., quality=...)`: validates only the gene id
(against the record, without the quality context) and the location (with the
CDS resolved from the record plus the quality context); the payload was already
validated when it was constructed. -/
def Domain.validate (d : Domain) (record : Option Record := none)
    (quality : Option QualityLevel := none) : List ValidationErrorInfo :=
  geneIdValidate d.gene record ++
  d.location.validate none (record.bind (fun r => r.getCds d.gene)) quality

/-- `Domain.__init__` with validation enabled. -/
def Domain.construct (dt : DomainType) (gene : String) (location : Location)
    (extraInfo : DomainInfo) (record : Option Record := none)
    (quality : Option QualityLevel := none) : Except PyError Domain :=
  let d : Domain := ⟨dt, gene, location, extraInfo⟩
  match d.validate record quality with
  | [] => .ok d
  | errs => .error (.validation errs)

/-- `GeneId(...)` construction with validation (no quality context, as at the
converter call sites). -/
def geneIdConstruct (g : String) (record : Option Record := none) :
    Except PyError String :=
  match geneIdValidate g record with
  | [] => .ok g
  | errs => .error (.validation errs)

/-- `ModuleInfo` (`modules/core.py`): generic module-info base; `get_domains`
chains core, modification, then carrier domains. -/
structure ModuleInfo where
  carriers : List Domain
  modificationDomains : List Domain
  coreDomains : List Domain
deriving DecidableEq, Repr

/-- `ModuleInfo._validate(**kwargs)`.  The source's `domains = self.get_domains()`
is an `itertools.chain` ITERATOR and `if not domains:` tests the iterator
object itself, which is always truthy — so the branch appending the
`("ModuleInfo.references", "Modules require at least one domain")` violation
can never fire, and only the per-domain validation remains (the subclass
`validate` hook returns `[]`). -/
def ModuleInfo.validateM (m : ModuleInfo) (record : Option Record := none)
    (quality : Option QualityLevel := none) : List ValidationErrorInfo :=
  let domains := m.coreDomains ++ m.modificationDomains ++ m.carriers
  domains.flatMap (fun d => d.validate record quality)

/-- `ModuleInfo.__init__` with validation enabled. -/
def ModuleInfo.construct (carriers modificationDomains coreDomains : List Domain)
    (record : Option Record := none) (quality : Option QualityLevel := none) :
    Except PyError ModuleInfo :=
  let m : ModuleInfo := ⟨carriers, modificationDomains, coreDomains⟩
  match m.validateM record quality with
  | [] => .ok m
  | errs => .error (.validation errs)

/-- `PksTransAtStarter` (`modules/pks.py`): carriers plus modification domains;
its `validate` only recurses into the listed domains — it has NO
at-least-one-domain check and does not inherit `ModuleInfo`. -/
structure PksTransAtStarter where
  carriers : List Domain
  modificationDomains : List Domain
deriving DecidableEq, Repr

/-- `PksTransAtStarter.validate(**kwargs)`. -/
def PksTransAtStarter.validate (m : PksTransAtStarter)
    (record : Option Record := none) (quality : Option QualityLevel := none) :
    List ValidationErrorInfo :=
  m.carriers.flatMap (fun d => d.validate record quality) ++
  m.modificationDomains.flatMap (fun d => d.validate record quality)

/-- `PksTransAtStarter.__init__` with validation enabled. -/
def PksTransAtStarter.construct (carriers modificationDomains : List Domain)
    (record : Option Record := none) (quality : Option QualityLevel := none) :
    Except PyError PksTransAtStarter :=
  let m : PksTransAtStarter := ⟨carriers, modificationDomains⟩
  match m.validate record quality with
  | [] => .ok m
  | errs => .error (.validation errs)

/-- `CAL` (`modules/cal.py`): only modification domains; like the PKS starter
variants it has no at-least-one-domain check. -/
structure CAL where
  modificationDomains : List Domain
deriving DecidableEq, Repr

/-- `CAL.validate(**kwargs)`. -/
def CAL.validate (m : CAL) (record : Option Record := none)
    (quality : Option QualityLevel := none) : List ValidationErrorInfo :=
  m.modificationDomains.flatMap (fun d => d.validate record quality)

/-- `CAL.__init__` with validation enabled. -/
def CAL.construct (modificationDomains : List Domain)
    (record : Option Record := none) (quality : Option QualityLevel := none) :
    Except PyError CAL :=
  let m : CAL := ⟨modificationDomains⟩
  match m.validate record quality with
  | [] => .ok m
  | errs => .error (.validation errs)

/-- `ReleaseEntry`: one audit-trail line.  Dates are modelled as ISO strings. -/
structure ReleaseEntry where
  contributors : List SubmitterID
  reviewers : List SubmitterID
  date : String
  comment : String
deriving DecidableEq, Repr

/-- `ReleaseEntry.validate(**kwargs)`: non-empty contributors, tier-gated
non-empty reviewers, and per-id validation. -/
def ReleaseEntry.validate (e : ReleaseEntry) (quality : Option QualityLevel := none) :
    List ValidationErrorInfo :=
  (if e.contributors = [] then
    [⟨"contributors", "contributor list cannot be empty"⟩] else []) ++
  (if quality ≠ some .questionable ∧ e.reviewers = [] then
    [⟨"reviewers", "reviewer list cannot be empty"⟩] else []) ++
  e.contributors.flatMap SubmitterID.validate ++
  e.reviewers.flatMap SubmitterID.validate

/-- `ReleaseEntry.__init__` with validation enabled. -/
def ReleaseEntry.construct (contributors reviewers : List SubmitterID)
    (date : String) (comment : String) (quality : Option QualityLevel := none) :
    Except PyError ReleaseEntry :=
  let e : ReleaseEntry := ⟨contributors, reviewers, date, comment⟩
  match e.validate quality with
  | [] => .ok e
  | errs => .error (.validation errs)

/-- `Release`: a release version, an optional date, and its entries. -/
structure Release where
  version : ReleaseVersion
  date : Option String
  entries : List ReleaseEntry
deriving DecidableEq, Repr

/-- `Release.validate(**kwargs)`. -/
def Release.validate (r : Release) (quality : Option QualityLevel := none) :
    List ValidationErrorInfo :=
  r.version.validate ++
  (if r.date = none ∧ r.version.inner ≠ "next" then
    [⟨"Release", "Release date must be provided if version is not 'next'"⟩]
   else []) ++
  r.entries.flatMap (fun e => e.validate quality)

/-- `Release.__init__` with validation enabled. -/
def Release.construct (version : ReleaseVersion) (date : Option String)
    (entries : List ReleaseEntry) (quality : Option QualityLevel := none) :
    Except PyError Release :=
  let r : Release := ⟨version, date, entries⟩
  match r.validate quality with
  | [] => .ok r
  | errs => .error (.validation errs)

/-- The fixed historical `MIBIG_VERSION_TO_DATE` table. -/
def MIBIG_VERSION_TO_DATE : List (String × String) :=
  [("1.0", "2015-06-12"), ("1.1", "2015-08-17"), ("1.2", "2015-12-24"),
   ("1.3", "2016-09-03"), ("1.4", "2018-08-06"), ("2.0", "2019-10-16"),
   ("3.0", "2022-09-15"), ("3.1", "2022-10-07")]

/-- The canned `REVIEW_MESSAGES` set. -/
def REVIEW_MESSAGES : List String :=
  ["Changes reviewed and approved.", "Changes reviewed and approved",
   "Entry reviewed and approved.", "Reviewed changes and approved."]

/-- The sentinel submitter; `SubmitterID("AAAAAAAAAAAAAAAAAAAAAAAA")` always
validates (24 alphanumeric characters). -/
def mibigUser : SubmitterID := ⟨mibigUserStr⟩

/-- `date.fromisoformat` as a shape check over `YYYY-MM-DD` strings (the exact
month-length/leap-day calendar checks are not modelled; every date reaching the
theorems below is a real calendar date). -/
def pyDateFromIso (s : String) : Except PyError String :=
  match s.toList with
  | [y1, y2, y3, y4, '-', m1, m2, '-', d1, d2] =>
    if ([y1, y2, y3, y4, m1, m2, d1, d2].all Char.isDigit) then
      let month := (m1.toNat - 48) * 10 + (m2.toNat - 48)
      let day := (d1.toNat - 48) * 10 + (d2.toNat - 48)
      if 1 ≤ month ∧ month ≤ 12 ∧ 1 ≤ day ∧ day ≤ 31 then Except.ok s
      else Except.error (PyError.valueError s!"Invalid isoformat string {s}")
    else Except.error (PyError.valueError s!"Invalid isoformat string {s}")
  | _ => Except.error (PyError.valueError s!"Invalid isoformat string {s}")

/-- One legacy changelog line, as decoded by the v3 read model
(`Change` in `v3/read/top.py`): parallel `comments`/`contributors` arrays, the
legacy version string, and the optional `updated_at` timestamps (`[]` models
both an absent and an empty array — the converter tests plain truthiness). -/
structure ChangeEntry where
  comments : List String
  contributors : List String
  mibigVersion : String
  timestamps : List String
deriving DecidableEq, Repr

/-- The in-place review-stripping loop of the timestamps branch
(`convert_changelog` lines 1053-1061): walks the comments, and deletes each
comment found in `REVIEW_MESSAGES` together with the same-index contributor,
collecting that contributor as a reviewer.  Returns (remaining comments,
remaining contributors, reviewer names in scan order).  When the contributor
list runs out early while a review comment remains, the Python code would
raise `IndexError`; no theorem below reaches that case and the model leaves
the tail untouched. -/
def stripReviews : List String → List String → List String × List String × List String
  | [], ps => ([], ps, [])
  | c :: cs, [] => (c :: cs, [], [])
  | c :: cs, p :: ps =>
    if c ∈ REVIEW_MESSAGES then
      let (cs', ps', rs) := stripReviews cs ps
      (cs', ps', p :: rs)
    else
      let (cs', ps', rs) := stripReviews cs ps
      (c :: cs', p :: ps', rs)

/-- Truncating three-way zip, as Python's `zip`. -/
def zip3 : List α → List β → List γ → List (α × β × γ)
  | a :: as, b :: bs, c :: cs => (a, b, c) :: zip3 as bs cs
  | _, _, _ => []

/-- The `while entry.contributors[j] != sentinel` pairing loop of heuristic 4:
pairs contributors with same-index comments until the first sentinel
contributor, returning the pairs and the comments from that index onward.
(The Python code would `IndexError` if the comments ran out before the first
sentinel; no theorem below reaches that case.) -/
def pairUntilSentinel : List String → List String → List (String × String) × List String
  | [], comments => ([], comments)
  | q :: qs, comments =>
    if q = mibigUserStr then ([], comments)
    else
      match comments with
      | [] => ([], [])
      | m :: ms =>
        let (pairs, rest) := pairUntilSentinel qs ms
        ((q, m) :: pairs, rest)

/-- The version/date resolution at the top of the `convert_changelog` loop:
the sentinel `"next"` keeps no date, every other legacy version is looked up
in `MIBIG_VERSION_TO_DATE` (a missing version is a hard `KeyError`) and
renumbered sequentially from the `enumerate` index. -/
def changelogVersionInfo (i : Nat) (v : String) : Except PyError (Option String × String) :=
  if v = "next" then .ok (none, "next")
  else
    match (MIBIG_VERSION_TO_DATE.find? (fun p => p.1 = v)).map Prod.snd with
    | none => .error (.keyError v)
    | some d => .ok (some d, toString (i + 1))

/-- Heuristics 2-8 of `convert_changelog` (the branches for entries without
timestamps), producing the `release_entries` list. -/
def noTsReleaseEntries (entryDate : Option String) (cs ps : List String) :
    Except PyError (List ReleaseEntry) :=
  if ps.length = cs.length then
    -- heuristic 2: equal lengths, zip 1:1 with the sentinel as sole reviewer
    match entryDate with
    | none => Except.error PyError.assertionError
    | some d =>
      (ps.zip cs).mapM (fun t => do
        let cSub ← SubmitterID.construct t.1
        ReleaseEntry.construct [cSub] [mibigUser] d t.2)
  else if ps.length = 1 then
    -- heuristic 3: a single contributor authored every comment
    match entryDate with
    | none => Except.error PyError.assertionError
    | some d => do
      let cSub ← SubmitterID.construct (ps.headD "")
      cs.mapM (fun m => ReleaseEntry.construct [cSub] [mibigUser] d m)
  else
    -- the remaining heuristics all start by inspecting contributors[-1]
    match ps.getLast? with
    | none => Except.error PyError.indexError
    | some lastP =>
      if lastP = mibigUserStr then
        -- heuristic 4: pair until the first sentinel, rest goes to the sentinel
        match entryDate with
        | none => Except.error PyError.assertionError
        | some d => do
          let (pairs, rest) := pairUntilSentinel ps cs
          let paired ← pairs.mapM (fun t => do
            let cSub ← SubmitterID.construct t.1
            ReleaseEntry.construct [cSub] [mibigUser] d t.2)
          let tail ← rest.mapM (fun m =>
            ReleaseEntry.construct [mibigUser] [mibigUser] d m)
          pure (paired ++ tail)
      else if cs.length = 1 then
        -- heuristic 5: all contributors jointly authored the one comment
        match entryDate with
        | none => Except.error PyError.assertionError
        | some d => do
          let subs ← ps.mapM SubmitterID.construct
          let e ← ReleaseEntry.construct subs [mibigUser] d (cs.headD "")
          pure [e]
      else if ps.headD "" = mibigUserStr ∧ lastP ≠ mibigUserStr then
        -- heuristic 6: sentinel-first two-tier split.  The final real-contributor
        -- entry is CONSTRUCTED but never appended to the release entries.
        match entryDate with
        | none => Except.error PyError.assertionError
        | some d =>
          if ps.dropLast ≠ [] ∧ ps.dropLast.all (· = mibigUserStr) then do
            let entriesMid ← cs.dropLast.mapM (fun m =>
              ReleaseEntry.construct [mibigUser] [mibigUser] d m)
            match cs.getLast? with
            | none => Except.error PyError.indexError
            | some lastC => do
              let lastSub ← SubmitterID.construct lastP
              let _ ← ReleaseEntry.construct [lastSub] [mibigUser] d lastC
              pure entriesMid
          else
            Except.error (PyError.valueError
              "Mismatch between number of comments and contributors")
      else if 3 ≤ ps.length then
        -- heuristic 7: "first real, middle all sentinel, last real, first
        -- comment 'Submitted'".  The first and last entries are CONSTRUCTED but
        -- never appended; the middle loop runs over comments[:-1], which still
        -- includes the first comment, attributed to the sentinel.  If the inner
        -- pattern fails, the branch falls through with ZERO entries (no raise).
        match entryDate with
        | none => Except.error PyError.assertionError
        | some d =>
          if ps.headD "" ≠ mibigUserStr then
            match cs with
            | [] => Except.error PyError.indexError
            | c0 :: _ =>
              if c0 = "Submitted" ∧ lastP ≠ mibigUserStr ∧
                  (ps.drop 1).dropLast ≠ [] ∧
                  ((ps.drop 1).dropLast.all (· = mibigUserStr)) then do
                let firstSub ← SubmitterID.construct (ps.headD "")
                let _ ← ReleaseEntry.construct [firstSub] [mibigUser] d c0
                let entriesMid ← cs.dropLast.mapM (fun m =>
                  ReleaseEntry.construct [mibigUser] [mibigUser] d m)
                let lastSub ← SubmitterID.construct lastP
                let _ ← ReleaseEntry.construct [lastSub] [mibigUser] d (cs.getLastD "")
                pure entriesMid
              else pure []
          else pure []
      else
        Except.error (PyError.valueError
          "Mismatch between number of comments and contributors")

/-- The heuristic cascade of `convert_changelog` for one legacy entry:
produces the `release_entries` list and the post-branch state of the legacy
entry (only heuristic 1, the timestamps branch, deletes review lines from the
entry's parallel arrays in place). -/
def convertReleaseEntries (entryDate : Option String) (entry : ChangeEntry) :
    Except PyError (List ReleaseEntry × ChangeEntry) :=
  if entry.timestamps ≠ [] then
    -- heuristic 1: timestamps exist.  NOTE the chained comparison
    -- `len(timestamps) != len(comments) != len(contributors)` only raises when
    -- BOTH inequalities hold, and `zip` silently truncates to the shortest list.
    if entry.timestamps.length ≠ entry.comments.length ∧
        entry.comments.length ≠ entry.contributors.length then
      Except.error (PyError.valueError
        "Mismatch between number of comments, contributors and timestamps")
    else do
      let (cs', ps', revStrs) := stripReviews entry.comments entry.contributors
      let reviewers ← revStrs.mapM SubmitterID.construct
      let entries ← (zip3 ps' cs' entry.timestamps).mapM (fun t => do
        let d ← pyDateFromIso ((pySplit t.2.2 'T').headD t.2.2)
        let cSub ← SubmitterID.construct t.1
        ReleaseEntry.construct [cSub] reviewers d t.2.1)
      pure (entries, { entry with comments := cs', contributors := ps' })
  else do
    let entries ← noTsReleaseEntries entryDate entry.comments entry.contributors
    pure (entries, entry)

/-- `convert_changelog`, one legacy entry (`i` is the `enumerate` index):
returns the reconstructed `Release` together with the post-call state of the
legacy entry. -/
def convertChangelogEntry (i : Nat) (entry : ChangeEntry) :
    Except PyError (Release × ChangeEntry) := do
  let vinfo ← changelogVersionInfo i entry.mibigVersion
  let version ← ReleaseVersion.construct vinfo.2
  let res ← convertReleaseEntries vinfo.1 entry
  let rel ← Release.construct version vinfo.1 res.1
  pure (rel, res.2)

/-- `convert_changelog` over the whole legacy changelog: the reconstructed
releases (wrapped into a `ChangeLog` by the caller; `ChangeLog.validate` only
re-validates each release) together with the post-call state of every legacy
entry. -/
def convertChangelog (entries : List ChangeEntry) :
    Except PyError (List Release × List ChangeEntry) := do
  let results ← entries.enum.mapM (fun p => convertChangelogEntry p.1 p.2)
  pure (results.map Prod.fst, results.map Prod.snd)

/-- v3 read model: a publication reference `(category, content)`. -/
structure Publication where
  category : String
  content : String
deriving DecidableEq, Repr

/-- v3 read model: `NRPSSubstrate`. -/
structure NRPSSubstrate where
  name : String
  proteinogenic : Bool
  struc : Option String
deriving DecidableEq, Repr

/-- v3 read model: `Specificity` (`a_substr_spec`). -/
structure Specificity where
  epimerized : Bool
  evidence : List String
  publications : List Publication
  substrates : List NRPSSubstrate
deriving DecidableEq, Repr

/-- v3 read model: `NonCanonical`. -/
structure NonCanonical where
  evidence : List String
  skipped : Option Bool
  nonElongating : Option Bool
  iterated : Bool
deriving DecidableEq, Repr

/-- v3 read model: `NRPSModule`. -/
structure NRPSModule where
  specificity : Option Specificity
  active : Option Bool
  condensationType : Option String
  modificationDomains : List String
  moduleNumber : Option String
  nonCanonical : Option NonCanonical
deriving DecidableEq, Repr

/-- v3 read model: `NRPSGene`. -/
structure NRPSGene where
  geneId : String
  modules : List NRPSModule
deriving DecidableEq, Repr

/-- `NcaEvidence` (`modules/base.py`). -/
structure NcaEvidence where
  method : String
  references : List Citation
deriving DecidableEq, Repr

/-- `NonCanonicalActivity` (`modules/base.py`). -/
structure NonCanonicalActivity where
  evidence : List NcaEvidence
  iterations : Option Int
  nonElongating : Option Bool
  skipped : Option Bool
deriving DecidableEq, Repr

/-- `convert_nc_activity`: the loop filters out `"Sequence-based prediction"`,
but both `NcaEvidence.__init__` and `NonCanonicalActivity.__init__` accept no
`quality` keyword while the converter passes `quality=quality` to each, so the
call raises `TypeError` as soon as legacy non-canonical data is present (at
the first kept evidence entry, or otherwise at the final
`NonCanonicalActivity(...)` call). -/
def convertNcActivity :
    Option NonCanonical → Except PyError (Option NonCanonicalActivity)
  | none => .ok none
  | some _ => .error (.typeError "unexpected keyword argument quality")

/-- `OperonEvidence` (`biosynthesis/__init__.py`). -/
structure OperonEvidence where
  method : String
  references : List Citation
deriving DecidableEq, Repr

/-- `OperonEvidence.VALID_METHODS`. -/
def operonEvidenceValidMethods : List String :=
  ["Sequence-based prediction", "RACE", "ChIPseq", "RNAseq", "rt-PCR"]

/-- `OperonEvidence.validate(**kwargs)` (the inner citation-list call passes no
quality of its own). -/
def OperonEvidence.validate (ev : OperonEvidence)
    (quality : Option QualityLevel := none) : List ValidationErrorInfo :=
  (if ev.method ∉ operonEvidenceValidMethods then
    [⟨"OperonEvidence.method", s!"Invalid method: {ev.method}"⟩] else []) ++
  (if quality ≠ some .questionable then
    validateCitationList ev.references "OperonEvidence.references" none
   else [])

/-- `OperonEvidence.__init__` with validation enabled. -/
def OperonEvidence.construct (method : String) (references : List Citation)
    (quality : Option QualityLevel := none) : Except PyError OperonEvidence :=
  let ev : OperonEvidence := ⟨method, references⟩
  match ev.validate quality with
  | [] => .ok ev
  | errs => .error (.validation errs)

/-- `GTEvidence` (`classes/saccharide.py`). -/
structure GTEvidence where
  method : String
  references : List Citation
deriving DecidableEq, Repr

/-- `GTEvidence.VALID_METHODS`. -/
def gtEvidenceValidMethods : List String :=
  ["Sequence-based prediction", "Structure-based inference", "Knock-out construct",
   "Activity assay"]

/-- `GTEvidence.validate(quality=...)` (`if quality and quality is not
QUESTIONABLE`: the citation check needs a present, non-questionable quality). -/
def GTEvidence.validate (ev : GTEvidence) (quality : Option QualityLevel := none) :
    List ValidationErrorInfo :=
  (if ev.method ∉ gtEvidenceValidMethods then
    [⟨"GTEvidence.method", s!"Invalid method: {ev.method}"⟩] else []) ++
  (if quality.isSome ∧ quality ≠ some .questionable then
    validateCitationList ev.references "Citation" none
   else [])

/-- `GTEvidence.__init__` with validation enabled. -/
def GTEvidence.construct (method : String) (references : List Citation)
    (quality : Option QualityLevel := none) : Except PyError GTEvidence :=
  let ev : GTEvidence := ⟨method, references⟩
  match ev.validate quality with
  | [] => .ok ev
  | errs => .error (.validation errs)

/-- The operon-evidence loop of `convert_genes` (lines 304-311): the legacy
value `"Sequence-based prediction"` is skipped, everything else becomes an
`OperonEvidence` with empty references. -/
def convertOperonEvidence (evs : List String) (quality : Option QualityLevel) :
    Except PyError (List OperonEvidence) :=
  (evs.filter (· ≠ "Sequence-based prediction")).mapM
    (fun ev => OperonEvidence.construct ev [] quality)

/-- The glycosyltransferase-evidence loop of `convert_saccharide`
(lines 429-434): same skip of `"Sequence-based prediction"`. -/
def convertGtEvidence (evs : List String) (quality : Option QualityLevel) :
    Except PyError (List GTEvidence) :=
  (evs.filter (· ≠ "Sequence-based prediction")).mapM
    (fun ev => GTEvidence.construct ev [] quality)

/-- v3 gene-annotation domain substrate: the fields the evidence loop of
`convert_genes` (lines 246-274) reads. -/
structure GeneDomainSubstrate where
  evidence : List String
  publications : List Publication
deriving DecidableEq, Repr

/-- The per-substrate part of the evidence loop in the Adenylation branch of
`convert_genes` (lines 260-274): `"Sequence-based prediction"` entries are
skipped and every kept entry carries the substrate's publications as
references. -/
def genesSubstrateEvidenceOne (quality : Option QualityLevel)
    (sub : GeneDomainSubstrate) : Except PyError (List SubstrateEvidence) :=
  (sub.evidence.filter (· ≠ "Sequence-based prediction")).mapM (fun ev => do
    let refs ← sub.publications.mapM (fun p => Citation.construct p.category p.content)
    SubstrateEvidence.construct ev refs quality)

/-- The whole substrate-evidence loop of the Adenylation branch of
`convert_genes`, over all substrates of a domain. -/
def convertGenesSubstrateEvidence (subs : List GeneDomainSubstrate)
    (quality : Option QualityLevel) : Except PyError (List SubstrateEvidence) := do
  let lists ← subs.mapM (genesSubstrateEvidenceOne quality)
  pure lists.flatten

/-- The substrate-evidence block of `convert_nrps_modules` (lines 959-968):
unlike the four other evidence conversions there is NO filtering of
`"Sequence-based prediction"` here; afterwards, a single evidence entry
inherits the specificity-level publications as its references. -/
def convertNrpsSubstrateEvidence (spec : Specificity)
    (quality : Option QualityLevel) : Except PyError (List SubstrateEvidence) := do
  let evidence ← spec.evidence.mapM (fun ev => SubstrateEvidence.construct ev [] quality)
  match evidence, spec.publications with
  | [e], p :: ps => do
    let refs ← (p :: ps).mapM (fun q => Citation.construct q.category q.content)
    pure [{ e with references := refs }]
  | _, _ => pure evidence

/-- `NrpsTypeI` module payload (`modules/nrps.py`). -/
structure NrpsTypeI where
  aDomain : Domain
  carriers : List Domain
  cDomain : Option Domain
  modificationDomains : List Domain
deriving DecidableEq, Repr

/-- `NrpsTypeI.validate(**kwargs)`: recurses into every listed domain. -/
def NrpsTypeI.validate (m : NrpsTypeI) (record : Option Record := none)
    (quality : Option QualityLevel := none) : List ValidationErrorInfo :=
  m.aDomain.validate record quality ++
  m.carriers.flatMap (fun d => d.validate record quality) ++
  (match m.cDomain with
   | some d => d.validate record quality
   | none => []) ++
  m.modificationDomains.flatMap (fun d => d.validate record quality)

/-- `NrpsTypeI.__init__` with validation enabled. -/
def NrpsTypeI.construct (aDomain : Domain) (carriers : List Domain)
    (cDomain : Option Domain) (modificationDomains : List Domain)
    (record : Option Record := none) (quality : Option QualityLevel := none) :
    Except PyError NrpsTypeI :=
  let m : NrpsTypeI := ⟨aDomain, carriers, cDomain, modificationDomains⟩
  match m.validate record quality with
  | [] => .ok m
  | errs => .error (.validation errs)

/-- The `ModuleType` enumeration (`modules/base.py`); it has NO
`PKS_MODULAR_STARTER`/`PKS_TRANS_AT_STARTER` members. -/
inductive ModuleType where
  | cal | nrpsType1 | nrpsType6 | other | pksIterative | pksModular | pksTransAt
deriving DecidableEq, Repr

/-- `Module` (`modules/base.py`) as constructed by the NRPS conversion (whose
payload is always `NrpsTypeI`).  The Python `Module.__init__` has NO
`non_canonical_activity` parameter: the converter's keyword of that name is
swallowed by `**kwargs` and the converted module stores no non-canonical
data. -/
structure ModuleV4 where
  moduleType : ModuleType
  name : String
  genes : List String
  active : Option Bool
  extraInfo : NrpsTypeI
  integratedMonomers : List String
deriving DecidableEq, Repr

/-- `Module.validate(**kwargs)`: payload validation, monomers, and each gene
against the record only (no quality context for the genes). -/
def ModuleV4.validate (m : ModuleV4) (record : Option Record := none)
    (quality : Option QualityLevel := none) : List ValidationErrorInfo :=
  m.extraInfo.validate record quality ++
  m.genes.flatMap (fun g => geneIdValidate g record)

/-- `Module.__init__` with validation enabled. -/
def ModuleV4.construct (moduleType : ModuleType) (name : String)
    (genes : List String) (active : Option Bool) (extraInfo : NrpsTypeI)
    (integratedMonomers : List String) (record : Option Record := none)
    (quality : Option QualityLevel := none) : Except PyError ModuleV4 :=
  let m : ModuleV4 := ⟨moduleType, name, genes, active, extraInfo, integratedMonomers⟩
  match m.validate record quality with
  | [] => .ok m
  | errs => .error (.validation errs)

/-- The synthetic module id `f"Unk{module_count:02d}"`. -/
def unkId (n : Nat) : String :=
  if n < 10 then s!"Unk0{n}" else s!"Unk{n}"

/-- Conversion state shared across NRPS genes: the emitted modules (shared
objects — a cross-CDS module id appends its gene to the already-emitted
module), the ids seen so far (`modules_by_id`), and the running counter. -/
structure NrpsState where
  modules : List ModuleV4
  knownIds : List String
  count : Nat
deriving DecidableEq, Repr

/-- The modification-domain loop of `convert_nrps_modules` (lines 886-931):
returns (modification domains, carriers).  `"Epimerization"` and `"Unknown"`
are skipped, carrier-type names go to the carriers list, and an unrecognized
name is a hard `ValueError`. -/
def convertNrpsModificationDomains (geneId : String) (mods : List String)
    (quality : Option QualityLevel) : Except PyError (List Domain × List Domain) :=
  mods.foldlM (fun acc v3Mod => do
    if v3Mod = "Methylation" ∨ strEndsWith v3Mod "-methylation" then do
      let subtype := if strEndsWith v3Mod "-methylation" then
        some ((pySplit v3Mod '-').headD "") else none
      let mi ← Methyltransferase.construct subtype none
      let loc ← Location.construct (-1) (-1) none none quality
      let d ← Domain.construct .methyltransferase geneId loc (.methyltransferase mi)
        none quality
      pure (acc.1 ++ [d], acc.2)
    else if v3Mod = "Epimerization" then
      pure acc
    else if v3Mod = "Phosphopantetheinyl transferase" ∨ v3Mod = "Beta-branching" then do
      let branching := v3Mod = "Beta-branching"
      let mi ← Carrier.construct (some "PCP") (some branching)
      let loc ← Location.construct (-1) (-1) none none quality
      let d ← Domain.construct .carrier geneId loc (.carrier mi) none quality
      pure (acc.1, acc.2 ++ [d])
    else if v3Mod = "Hydroxylation" ∨ v3Mod = "beta-hydroxylation" then do
      let loc ← Location.construct (-1) (-1) none none quality
      let d ← Domain.construct .hydroxylase geneId loc .hydroxylase none quality
      pure (acc.1 ++ [d], acc.2)
    else if v3Mod = "CoA-ligase" then do
      let mi ← Ligase.construct [] [] quality
      let loc ← Location.construct (-1) (-1) none none quality
      let d ← Domain.construct .ligase geneId loc (.ligase mi) none quality
      pure (acc.1 ++ [d], acc.2)
    else if v3Mod = "Oxidation" then do
      let loc ← Location.construct (-1) (-1) none none quality
      let d ← Domain.construct .oxidase geneId loc .oxidase none quality
      pure (acc.1 ++ [d], acc.2)
    else if v3Mod = "Unknown" then
      pure acc
    else
      Except.error (PyError.valueError s!"unsupported NRPS modification domain {v3Mod}"))
    ([], [])

/-- One iteration of the module loop of `convert_nrps_modules` (lines 850-1002):
id assignment (synthetic `UnkNN` for a falsy module number), the cross-CDS
gene append for already-seen ids, the skip-with-warning for missing
specificity, and otherwise the full domain assembly.   `Epimerase(active=True)`
raises `TypeError` (the class constructor takes no arguments), and a truthy
legacy condensation type always fails `Condensation` validation (the empty
reference list is checked without a quality context). -/
def convertNrpsModule (geneId : String) (st : NrpsState) (m : NRPSModule) :
    Except PyError NrpsState := do
  let quality := some QualityLevel.questionable
  let (moduleId, count) :=
    match m.moduleNumber with
    | some id => if id ≠ "" then (id, st.count) else (unkId st.count, st.count + 1)
    | none => (unkId st.count, st.count + 1)
  if moduleId ∈ st.knownIds then
    pure { st with
      modules := st.modules.map (fun md =>
        if md.name = moduleId then { md with genes := md.genes ++ [geneId] } else md),
      count }
  else
    match m.specificity with
    | none => pure { st with count }
    | some spec => do
      let _nc ← convertNcActivity m.nonCanonical
      if spec.epimerized then
        Except.error (PyError.typeError "Epimerase takes no arguments")
      else do
        let (modDoms, carriers) ←
          convertNrpsModificationDomains geneId m.modificationDomains quality
        let cDomain ←
          match m.condensationType with
          | some ct =>
            if ct ≠ "" then do
              let sub := if ct = "Unknown" then none else some ct
              let c ← Condensation.construct sub [] none
              let loc ← Location.construct (-1) (-1) none none quality
              let d ← Domain.construct .condensation geneId loc (.condensation c)
                none quality
              pure (some d)
            else pure none
          | none => pure none
        let substrates ← spec.substrates.mapM (fun s => do
          let struc ←
            match s.struc with
            | some raw => do
              let sm ← Smiles.construct raw
              pure (some sm)
            | none => pure none
          AdenylationSubstrate.construct s.name s.proteinogenic struc)
        let evidence ← convertNrpsSubstrateEvidence spec quality
        let aInfo ← Adenylation.construct substrates evidence [] none quality
        let loc ← Location.construct (-1) (-1) none none quality
        let aDomain ← Domain.construct .adenylation geneId loc (.adenylation aInfo)
          none quality
        let extraInfo ← NrpsTypeI.construct aDomain carriers cDomain modDoms
          none quality
        let module ← ModuleV4.construct .nrpsType1 moduleId [geneId] m.active
          extraInfo [] none quality
        pure { modules := st.modules ++ [module],
               knownIds := st.knownIds ++ [moduleId],
               count }

/-- `convert_nrps_modules` over one gene: validates the gene id, then folds the
module loop. -/
def convertNrpsModules (gene : NRPSGene) (st : NrpsState) :
    Except PyError NrpsState := do
  let geneId ← geneIdConstruct gene.geneId
  gene.modules.foldlM (convertNrpsModule geneId) st

/-- The per-gene loop of `convert_nrps` (lines 830-837), starting from a module
counter of 1 and empty `modules_by_id`. -/
def convertNrpsGenes (genes : List NRPSGene) : Except PyError NrpsState :=
  genes.foldlM (fun st g => convertNrpsModules g st) ⟨[], [], 1⟩

/-- Body of `MibigEntry.ENTRY_PATTERN` = `^(BGC\d{7,7}|new\d{3,3})$`: the
pattern accepts `new` plus three digits in addition to `BGC` plus seven. -/
def entryPatternCore (s : String) : Bool :=
  (strStartsWith s "BGC" && s.toList.length = 10 && (s.toList.drop 3).all Char.isDigit) ||
  (strStartsWith s "new" && s.toList.length = 6 && (s.toList.drop 3).all Char.isDigit)

/-- `ENTRY_PATTERN.match(accession)` (with Python `$` newline tolerance). -/
def entryPatternOk (s : String) : Bool := pyDollarMatch entryPatternCore s

/-- The accession check of `MibigEntry.validate` (entry.py lines 82-87): the
only source of violations on the `MibigEntry.accession` field in the whole
validator. -/
def mibigAccessionErrors (accession : String) : List ValidationErrorInfo :=
  if !entryPatternOk accession then
    [⟨"MibigEntry.accession", s!"Invalid accession: {accession}"⟩]
  else []

/-- The claim's own wording, for comparison with the code's pattern:
"BGC followed by exactly seven digits". -/
def specBgcPattern (s : String) : Bool :=
  strStartsWith s "BGC" && s.toList.length = 10 && (s.toList.drop 3).all Char.isDigit

/-- Projection used by the C1 counterexample: does the module's adenylation
payload carry a `"Sequence-based prediction"` evidence entry? -/
def moduleHasSbpEvidence (md : ModuleV4) : Bool :=
  match md.extraInfo.aDomain.extraInfo with
  | .adenylation a => a.evidence.any (fun ev => ev.method = "Sequence-based prediction")
  | _ => false

/-- A minimal legacy NRPS gene whose single module carries the substrate
specificity evidence `["Sequence-based prediction"]`. -/
def c1Gene : NRPSGene :=
  ⟨"geneA",
   [{ specificity := some
        { epimerized := false
          evidence := ["Sequence-based prediction"]
          publications := []
          substrates := [⟨"glycine", true, none⟩] }
      active := some true
      condensationType := none
      modificationDomains := []
      moduleNumber := some "1"
      nonCanonical := none }]⟩

/-- 24-character submitter ids used by the changelog test inputs. -/
def subA : String := "BBBBBBBBBBBBBBBBBBBBBBBB"

/-- Second test submitter id. -/
def subB : String := "CCCCCCCCCCCCCCCCCCCCCCCC"

/-- Third test submitter id. -/
def subC : String := "DDDDDDDDDDDDDDDDDDDDDDDD"

/-- C3 failing input: timestamps and comments agree in length (2) while the
contributors list has 3 entries, so the chained-comparison check does not fire
and `zip` silently drops the third contributor. -/
def c3Entry : ChangeEntry :=
  { comments := ["Submitted", "Changes reviewed and approved."]
    contributors := [subA, subB, subC]
    mibigVersion := "2.0"
    timestamps := ["2019-10-16T09:00:00", "2019-10-16T10:00:00"] }

/-- C3 second failing input: ≥3 contributors whose first comment is not
`"Submitted"` match none of the heuristics, yet the branch falls through and
produces a release with zero entries instead of raising. -/
def c3EntryB : ChangeEntry :=
  { comments := ["x", "y"]
    contributors := [subA, subB, subC]
    mibigVersion := "2.0"
    timestamps := [] }

/-- C4 failing input for heuristic 7: first real contributor, two sentinel
middles, last real contributor, first comment literally `"Submitted"`. -/
def c4Entry : ChangeEntry :=
  { comments := ["Submitted", "a", "b"]
    contributors := [subA, mibigUserStr, mibigUserStr, subB]
    mibigVersion := "2.0"
    timestamps := [] }

/-- C8 counterexample input: a timestamps entry containing a review-message
comment, whose processing deletes that comment and its contributor from the
legacy arrays in place. -/
def c8Entry : ChangeEntry :=
  { comments := ["foo", "Changes reviewed and approved."]
    contributors := [subA, subB]
    mibigVersion := "2.0"
    timestamps := ["2019-10-16T09:00:00", "2019-10-16T10:00:00"] }

/-- Whether the NRPS conversion of the given genes succeeds and emits a module
whose adenylation payload carries prediction evidence. -/
def nrpsConversionHasSbp (genes : List NRPSGene) : Bool :=
  match convertNrpsGenes genes with
  | .ok st => st.modules.any moduleHasSbpEvidence
  | .error _ => false

/-! ### Helper lemmas -/

theorem string_toList_append (a b : String) : (a ++ b).toList = a.toList ++ b.toList := by
  cases a; cases b; rfl

theorem string_mk_toList (a : String) : String.mk a.toList = a := by
  cases a; rfl

theorem string_eq_of_toList {a b : String} (h : a.toList = b.toList) : a = b := by
  cases a; cases b; exact congrArg String.mk h

theorem exceptMapM_ok_mem {α β : Type} {f : α → Except PyError β} :
    ∀ {l : List α} {res : List β}, l.mapM f = .ok res → ∀ r ∈ res, ∃ a ∈ l, f a = .ok r := by
  intro l
  induction l with
  | nil =>
    intro res h r hr
    simp only [List.mapM_nil, pure, Except.pure, Except.ok.injEq] at h
    subst h
    simp at hr
  | cons a as ih =>
    intro res h r hr
    rw [List.mapM_cons] at h
    cases hfa : f a with
    | error e =>
      rw [hfa] at h
      simp [Bind.bind, Except.bind] at h
    | ok b =>
      rw [hfa] at h
      cases hrest : as.mapM f with
      | error e =>
        rw [hrest] at h
        simp [Bind.bind, Except.bind] at h
      | ok bs =>
        rw [hrest] at h
        simp only [Bind.bind, Except.bind, pure, Except.pure, Except.ok.injEq] at h
        subst h
        rcases List.mem_cons.mp hr with hb | hbs
        · exact ⟨a, List.mem_cons_self a as, hb ▸ hfa⟩
        · obtain ⟨x, hx, hfx⟩ := ih hrest r hbs
          exact ⟨x, List.mem_cons_of_mem a hx, hfx⟩

/-- A successful `SubstrateEvidence.construct` keeps the method verbatim. -/
theorem substrateEvidence_construct_method {ev : String} {refs : List Citation}
    {q : Option QualityLevel} {r : SubstrateEvidence}
    (h : SubstrateEvidence.construct ev refs q = .ok r) :
    r.method = ev := by
  simp only [SubstrateEvidence.construct] at h
  split at h
  · cases h; rfl
  · cases h

/-- Over a list, successful construction of substrate evidence with empty
references reproduces the method list verbatim. -/
theorem substrateEvidence_mapM_methods {q : Option QualityLevel} :
    ∀ {l : List String} {res : List SubstrateEvidence},
      l.mapM (fun ev => SubstrateEvidence.construct ev [] q) = .ok res →
      res.map SubstrateEvidence.method = l := by
  intro l
  induction l with
  | nil =>
    intro res h
    simp only [List.mapM_nil, pure, Except.pure, Except.ok.injEq] at h
    subst h; rfl
  | cons a as ih =>
    intro res h
    rw [List.mapM_cons] at h
    cases hfa : SubstrateEvidence.construct a [] q with
    | error e => rw [hfa] at h; simp [Bind.bind, Except.bind] at h
    | ok b =>
      rw [hfa] at h
      cases hrest : as.mapM (fun ev => SubstrateEvidence.construct ev [] q) with
      | error e => rw [hrest] at h; simp [Bind.bind, Except.bind] at h
      | ok bs =>
        rw [hrest] at h
        simp only [Bind.bind, Except.bind, pure, Except.pure, Except.ok.injEq] at h
        subst h
        simp [substrateEvidence_construct_method hfa, ih hrest]

theorem splitFirstColon_of_append {a : List Char} (b : List Char) (ha : ':' ∉ a) :
    splitFirstColon (a ++ ':' :: b) = some (a, b) := by
  induction a with
  | nil => simp [splitFirstColon]
  | cons c cs ih =>
    have hc : c ≠ ':' := fun e => ha (e ▸ List.mem_cons_self c cs)
    have hcs : ':' ∉ cs := fun h => ha (List.mem_cons_of_mem _ h)
    simp [splitFirstColon, hc, ih hcs]

theorem splitFirstColon_eq :
    ∀ {l a b : List Char}, splitFirstColon l = some (a, b) →
      l = a ++ ':' :: b ∧ ':' ∉ a := by
  intro l
  induction l with
  | nil => intro a b h; simp [splitFirstColon] at h
  | cons c cs ih =>
    intro a b h
    by_cases hc : c = ':'
    · subst hc
      simp [splitFirstColon] at h
      obtain ⟨ha, hb⟩ := h
      subst ha; subst hb
      simp
    · simp only [splitFirstColon, if_neg hc] at h
      cases hs : splitFirstColon cs with
      | none => rw [hs] at h; cases h
      | some p =>
        rw [hs] at h
        obtain ⟨a', b'⟩ := p
        simp only [Option.some.injEq, Prod.mk.injEq] at h
        obtain ⟨ha, hb⟩ := h
        obtain ⟨hl, hna⟩ := ih hs
        subst ha; subst hb
        refine ⟨by simp [hl], ?_⟩
        intro hmem
        rcases List.mem_cons.mp hmem with he | hm
        · exact hc he.symm
        · exact hna hm

/-- A validated citation has one of the four databases, none of which
contains a colon. -/
theorem citation_db_no_colon {c : Citation} (h : c.validate = []) :
    c.database ∈ citationDatabases ∧ ':' ∉ c.database.toList := by
  unfold Citation.validate at h
  by_cases hdb : c.database ∈ citationDatabases
  · refine ⟨hdb, ?_⟩
    have hd : c.database = "pubmed" ∨ c.database = "doi" ∨ c.database = "patent" ∨
        c.database = "url" := by simpa [citationDatabases] using hdb
    rcases hd with h1 | h1 | h1 | h1 <;> rw [h1] <;> decide
  · simp [hdb] at h

theorem citation_roundtrip_decode {c : Citation} (h : c.validate = []) :
    Citation.fromJson (Citation.toJson c) = .ok c := by
  obtain ⟨_, hnc⟩ := citation_db_no_colon h
  unfold Citation.fromJson Citation.toJson
  have hlist : (c.database ++ ":" ++ c.value).toList =
      c.database.toList ++ ':' :: c.value.toList := by
    rw [string_toList_append, string_toList_append, List.append_assoc]
    rfl
  rw [hlist, splitFirstColon_of_append _ hnc]
  show Citation.construct (String.mk c.database.toList) (String.mk c.value.toList) =
    .ok c
  rw [string_mk_toList, string_mk_toList]
  simp [Citation.construct, h]

theorem citation_roundtrip_encode {raw : String} {c : Citation}
    (h : Citation.fromJson raw = .ok c) : Citation.toJson c = raw := by
  unfold Citation.fromJson at h
  cases hs : splitFirstColon raw.toList with
  | none => rw [hs] at h; cases h
  | some p =>
    rw [hs] at h
    obtain ⟨a, b⟩ := p
    have hc : c = ⟨String.mk a, String.mk b⟩ := by
      simp only [Citation.construct] at h
      split at h
      · cases h; rfl
      · cases h
    obtain ⟨hl, _⟩ := splitFirstColon_eq hs
    subst hc
    apply string_eq_of_toList
    unfold Citation.toJson
    rw [string_toList_append, string_toList_append, hl]
    simp

theorem location_roundtrip_decode {loc : Location} {q : Option QualityLevel}
    (h : loc.validate none none q = []) :
    Location.fromJson loc.toJson q = .ok loc := by
  unfold Location.fromJson Location.toJson Location.construct
  simp [h]

theorem location_roundtrip_encode {raw : LocationJson} {q : Option QualityLevel}
    {loc : Location} (h : Location.fromJson raw q = .ok loc) : loc.toJson = raw := by
  simp only [Location.fromJson, Location.construct] at h
  split at h
  · cases h; cases raw; rfl
  · cases h

theorem submitter_roundtrip_decode {s : SubmitterID} (h : s.validate = []) :
    SubmitterID.fromJson s.toJson = .ok s := by
  unfold SubmitterID.fromJson SubmitterID.construct SubmitterID.toJson
  simp [h]

theorem submitter_roundtrip_encode {raw : String} {s : SubmitterID}
    (h : SubmitterID.fromJson raw = .ok s) : s.toJson = raw := by
  simp only [SubmitterID.fromJson, SubmitterID.construct] at h
  split at h
  · cases h; rfl
  · cases h

theorem releaseVersion_roundtrip_decode {v : ReleaseVersion} (h : v.validate = []) :
    ReleaseVersion.fromJson v.toJson = .ok v := by
  unfold ReleaseVersion.fromJson ReleaseVersion.construct ReleaseVersion.toJson
  simp [h]

theorem releaseVersion_roundtrip_encode {raw : String} {v : ReleaseVersion}
    (h : ReleaseVersion.fromJson raw = .ok v) : v.toJson = raw := by
  simp only [ReleaseVersion.fromJson, ReleaseVersion.construct] at h
  split at h
  · cases h; rfl
  · cases h

theorem citationList_decode_encode {l : List Citation} (h : ∀ c ∈ l, c.validate = []) :
    (l.map Citation.toJson).mapM Citation.fromJson = .ok l := by
  induction l with
  | nil => rfl
  | cons c cs ih =>
    rw [List.map_cons, List.mapM_cons,
      citation_roundtrip_decode (h c (List.mem_cons_self c cs)),
      ih (fun x hx => h x (List.mem_cons_of_mem _ hx))]
    rfl

theorem citationList_encode_decode :
    ∀ {l : List String} {rs : List Citation},
      l.mapM Citation.fromJson = .ok rs → rs.map Citation.toJson = l := by
  intro l
  induction l with
  | nil =>
    intro rs h
    simp only [List.mapM_nil, pure, Except.pure, Except.ok.injEq] at h
    subst h; rfl
  | cons a as ih =>
    intro rs h
    rw [List.mapM_cons] at h
    cases hfa : Citation.fromJson a with
    | error e => rw [hfa] at h; simp [Bind.bind, Except.bind] at h
    | ok c =>
      rw [hfa] at h
      cases hrest : as.mapM Citation.fromJson with
      | error e => rw [hrest] at h; simp [Bind.bind, Except.bind] at h
      | ok cs =>
        rw [hrest] at h
        simp only [Bind.bind, Except.bind, pure, Except.pure, Except.ok.injEq] at h
        subst h
        simp [citation_roundtrip_encode hfa, ih hrest]

theorem evidence_construct_ok {method : String} {refs : List Citation}
    {q : Option QualityLevel} {ev : Evidence}
    (h : Evidence.construct method refs true q = .ok ev) :
    ev = ⟨method, pySetList refs⟩ := by
  simp only [Evidence.construct] at h
  split at h
  · cases h; rfl
  · split at h
    · cases h; rfl
    · cases h

theorem evidence_roundtrip_decode {ev : Evidence} {q : Option QualityLevel}
    (hval : ev.validate q = []) (hnodup : ev.references.Nodup)
    (hrefs : ∀ c ∈ ev.references, c.validate = []) :
    Evidence.fromJson ev.toJson q = .ok ev := by
  obtain ⟨m, refs⟩ := ev
  by_cases hre : refs = []
  · subst hre
    show Evidence.construct m [] true q = .ok ⟨m, []⟩
    simp [Evidence.construct, pySetList, hval]
  · have hjson : (⟨m, refs⟩ : Evidence).toJson =
        ⟨m, some (refs.map Citation.toJson)⟩ := by
      simp [Evidence.toJson, hre]
    rw [hjson]
    unfold Evidence.fromJson
    simp only [Option.getD_some]
    rw [citationList_decode_encode hrefs]
    have hdedup : refs.dedup = refs := List.dedup_eq_self.mpr hnodup
    show Evidence.construct m refs true q = .ok ⟨m, refs⟩
    simp [Evidence.construct, pySetList, hdedup, hval]

theorem evidence_roundtrip_encode {raw : EvidenceJson} {q : Option QualityLevel}
    {ev : Evidence} (h : Evidence.fromJson raw q = .ok ev)
    (hcanon : raw.references = none ∨
      ∃ l, raw.references = some l ∧ l ≠ [] ∧ l.Nodup) :
    ev.toJson = raw := by
  unfold Evidence.fromJson at h
  cases hm : (raw.references.getD []).mapM Citation.fromJson with
  | error e => rw [hm] at h; simp [Bind.bind, Except.bind] at h
  | ok rs =>
    rw [hm] at h
    simp only [Bind.bind, Except.bind] at h
    have hev := evidence_construct_ok h
    rcases hcanon with hnone | ⟨l, hsome, hne, hnodup⟩
    · rw [hnone] at hm
      simp only [Option.getD_none, List.mapM_nil, pure, Except.pure,
        Except.ok.injEq] at hm
      subst hm
      subst hev
      unfold Evidence.toJson
      cases raw
      simp_all [pySetList]
    · rw [hsome] at hm
      simp only [Option.getD_some] at hm
      have henc : rs.map Citation.toJson = l := citationList_encode_decode hm
      have hnd : rs.Nodup := List.Nodup.of_map Citation.toJson (henc ▸ hnodup)
      have hdedup : pySetList rs = rs := List.dedup_eq_self.mpr hnd
      have hrs_ne : rs ≠ [] := by
        intro h0
        rw [h0] at henc
        exact hne henc.symm
      subst hev
      unfold Evidence.toJson
      cases raw
      simp_all [pySetList]

/-! ### Claim theorems -/

/-- C7 counterexample: the accession `"new123"` does not match "BGC followed by
exactly seven digits", yet `MibigEntry.validate` reports no accession
violation for it. -/
theorem c7_counterexample :
    specBgcPattern "new123" = false ∧ mibigAccessionErrors "new123" = [] := by
  constructor <;> decide

/-- C7 (amended): MibigEntry validation reports an accession violation exactly
for the strings rejected by the full pattern `^(BGC\d{7,7}|new\d{3,3})$` — so
`new` plus three digits is also accepted, not only `BGC` plus seven. -/
theorem c7_main (s : String) :
    mibigAccessionErrors s = [] ↔ entryPatternOk s = true := by
  unfold mibigAccessionErrors
  cases h : entryPatternOk s <;> simp [h]

/-- C7 witness: the canonical accession shape is accepted. -/
theorem c7_witness : mibigAccessionErrors "BGC0000001" = [] :=
  (c7_main "BGC0000001").mpr (by decide)

/-- C10: constructing a proteinogenic `AdenylationSubstrate` without an
explicit structure performs the amino-acid-table lookup of the lowercased name
before the `validate` flag is consulted: an absent key is a raw `KeyError`
(not a `ValidationError`), even with `validate=False`; a present key
auto-fills the structure from the table. -/
theorem c10_main :
    (∀ name : String, protLookup (pyLower name) = none →
      AdenylationSubstrate.construct name true none false =
        .error (.keyError (pyLower name)) ∧
      AdenylationSubstrate.construct name true none true =
        .error (.keyError (pyLower name))) ∧
    AdenylationSubstrate.construct "Alanine" true none false =
      .ok ⟨"Alanine", true, some ⟨"NC(C)C(=O)O"⟩⟩ := by
  constructor
  · intro name h
    constructor <;> simp [AdenylationSubstrate.construct, h, Bind.bind, Except.bind]
  · decide

/-- C10 witness: `"ornithine"` is not one of the 20 table keys, so raw-mode
construction fails with a `KeyError`. -/
theorem c10_witness :
    AdenylationSubstrate.construct "ornithine" true none false =
      .error (.keyError (pyLower "ornithine")) :=
  (c10_main.1 "ornithine" (by decide)).1

/-- C9: `Evidence.__init__` stores the duplicate-free set of the supplied
references: whenever construction returns a value, its reference list is the
dedup of the input, contains no duplicates, and has exactly the members of the
input; duplicates are silently discarded, not reported (a duplicated citation
list still constructs successfully under validation). -/
theorem c9_main :
    (∀ (method : String) (refs : List Citation) (b : Bool) (q : Option QualityLevel)
        (ev : Evidence), Evidence.construct method refs b q = .ok ev →
      ev.references = pySetList refs ∧ ev.references.Nodup ∧
        (∀ c, c ∈ ev.references ↔ c ∈ refs)) ∧
    (∀ c : Citation,
      Evidence.construct "Sequence-based prediction" [c, c] true none =
        .ok ⟨"Sequence-based prediction", [c]⟩) := by
  constructor
  · intro method refs b q ev h
    have hrefs : ev = ⟨method, pySetList refs⟩ := by
      simp only [Evidence.construct] at h
      split at h
      · cases h; rfl
      · split at h
        · cases h; rfl
        · cases h
    subst hrefs
    refine ⟨rfl, List.nodup_dedup refs, fun c => List.mem_dedup⟩
  · intro c
    have hdedup : pySetList [c, c] = [c] := by
      by_cases hmem : c ∈ List.dedup [c]
      · simp [pySetList, List.dedup_cons_of_mem hmem]
      · exact absurd (by simp) hmem
    simp [Evidence.construct, hdedup, Evidence.validate, evidenceValidMethods]

/-- C9 witness: a concrete duplicated reference list is silently deduplicated. -/
theorem c9_witness :
    Evidence.construct "Sequence-based prediction"
        [⟨"pubmed", "1"⟩, ⟨"pubmed", "1"⟩] true none =
      .ok ⟨"Sequence-based prediction", [⟨"pubmed", "1"⟩]⟩ ∧
    ([⟨"pubmed", "1"⟩] : List Citation).Nodup :=
  ⟨c9_main.2 ⟨"pubmed", "1"⟩, by decide⟩

/-- C5: quality-tier gating.  A substrate-bearing `Adenylation` with an empty
evidence list constructs successfully at QUESTIONABLE and fails with exactly
the gated violation at every higher tier; a `Location` with a negative
coordinate behaves the same way. -/
theorem c5_main :
    (Adenylation.construct [⟨"alanine", true, some ⟨"NC(C)C(=O)O"⟩⟩] [] [] none
        (some .questionable) =
      .ok ⟨[⟨"alanine", true, some ⟨"NC(C)C(=O)O"⟩⟩], [], [], none⟩) ∧
    (∀ q, QualityLevel.ltQ .questionable q →
      Adenylation.construct [⟨"alanine", true, some ⟨"NC(C)C(=O)O"⟩⟩] [] [] none
          (some q) =
        .error (.validation
          [⟨"Adenylation.evidence", "Evidence is required for adenylation"⟩])) ∧
    (Location.construct (-1) 0 none none (some .questionable) = .ok ⟨-1, 0⟩) ∧
    (∀ q, QualityLevel.ltQ .questionable q →
      Location.construct (-1) 0 none none (some q) =
        .error (.validation
          [⟨"Location.from", "From coordinate must be positive"⟩])) := by
  refine ⟨by decide, ?_, by decide, ?_⟩
  · intro q hq
    cases q
    · exact absurd hq (by decide)
    · decide
    · decide
    · decide
  · intro q hq
    cases q
    · exact absurd hq (by decide)
    · decide
    · decide
    · decide

/-- C5 witness: the LOW tier rejects what QUESTIONABLE admits. -/
theorem c5_witness :
    QualityLevel.ltQ .questionable .low ∧
    Adenylation.construct [⟨"alanine", true, some ⟨"NC(C)C(=O)O"⟩⟩] [] [] none
        (some .low) =
      .error (.validation
        [⟨"Adenylation.evidence", "Evidence is required for adenylation"⟩]) :=
  ⟨by decide, c5_main.2.1 .low (by decide)⟩

/-- Membership in a conditionally-emitted singleton pins the element down. -/
theorem mem_ite_singleton {α : Type} {e v : α} {c : Prop} [Decidable c]
    (h : e ∈ (if c then [v] else ([] : List α))) : e = v := by
  split at h
  · exact List.mem_singleton.mp h
  · exact absurd h (List.not_mem_nil e)

/-- Every violation produced by `geneIdValidate` has field `gene_id`. -/
theorem geneIdValidate_field_eq {g : String} {r : Option Record}
    {e : ValidationErrorInfo} (he : e ∈ geneIdValidate g r) :
    e.field = "gene_id" := by
  unfold geneIdValidate at he
  rcases List.mem_append.mp he with h | h3
  · rcases List.mem_append.mp h with h1 | h2
    · rw [mem_ite_singleton h1]
    · rw [mem_ite_singleton h2]
  · cases r with
    | none => exact absurd h3 (List.not_mem_nil e)
    | some rec =>
      dsimp only at h3
      rw [mem_ite_singleton h3]

/-- No violation produced by `Location.validate` uses the field
`ModuleInfo.references`. -/
theorem location_validate_field_ne {loc : Location} {r : Option Record}
    {c : Option CDS} {q : Option QualityLevel} {e : ValidationErrorInfo}
    (he : e ∈ loc.validate r c q) : e.field ≠ "ModuleInfo.references" := by
  unfold Location.validate at he
  rcases List.mem_append.mp he with h | h5
  · rcases List.mem_append.mp h with h | h4
    · rcases List.mem_append.mp h with h | h3
      · rcases List.mem_append.mp h with h1 | h2
        · rw [mem_ite_singleton h1]
          decide
        · rw [mem_ite_singleton h2]
          decide
      · rw [mem_ite_singleton h3]
        show ("Location" : String) ≠ "ModuleInfo.references"
        decide
    · cases r with
      | none => exact absurd h4 (List.not_mem_nil e)
      | some rec =>
        dsimp only at h4
        split at h4
        · rcases List.mem_append.mp h4 with h | h
          · rw [mem_ite_singleton h]
            decide
          · rw [mem_ite_singleton h]
            decide
        · exact absurd h4 (List.not_mem_nil e)
  · cases c with
    | none => exact absurd h5 (List.not_mem_nil e)
    | some cd =>
      dsimp only at h5
      rw [mem_ite_singleton h5]
      decide

/-- No violation produced by `Domain.validate` uses the field
`ModuleInfo.references`. -/
theorem domain_validate_field_ne {d : Domain} {r : Option Record}
    {q : Option QualityLevel} {e : ValidationErrorInfo}
    (he : e ∈ d.validate r q) : e.field ≠ "ModuleInfo.references" := by
  unfold Domain.validate at he
  rcases List.mem_append.mp he with h | h
  · rw [geneIdValidate_field_eq h]
    decide
  · exact location_validate_field_ne h

/-- C6 counterexample: a `PksTransAtStarter` module payload (and a `CAL`
payload) constructed with every domain list empty succeeds — no
`ValidationError` naming "at least one domain" is raised. -/
theorem c6_counterexample :
    PksTransAtStarter.construct [] [] none none = .ok ⟨[], []⟩ ∧
    CAL.construct [] none none = .ok ⟨[]⟩ := by
  constructor <;> decide

/-- C6 (amended): the at-least-one-domain check is dead code.  Its only
occurrence, `ModuleInfo._validate`, tests `not domains` on the always-truthy
`itertools.chain` iterator returned by `get_domains`, so the
`("ModuleInfo.references", "Modules require at least one domain")` violation
can never appear in any validation result, and even the `ModuleInfo` base
constructs successfully with all three domain lists empty (under any
record/quality context); the concrete PKS starter and CAL variants have no
such check at all and likewise accept zero domains. -/
theorem c6_main :
    (∀ (ca mo co : List Domain) (r : Option Record) (q : Option QualityLevel),
      (⟨"ModuleInfo.references", "Modules require at least one domain"⟩ :
        ValidationErrorInfo) ∉ ModuleInfo.validateM ⟨ca, mo, co⟩ r q) ∧
    (∀ (r : Option Record) (q : Option QualityLevel),
      ModuleInfo.construct [] [] [] r q = .ok ⟨[], [], []⟩) ∧
    PksTransAtStarter.construct [] [] none none = .ok ⟨[], []⟩ ∧
    CAL.construct [] none none = .ok ⟨[]⟩ := by
  refine ⟨?_, fun r q => rfl, by decide, by decide⟩
  intro ca mo co r q hmem
  unfold ModuleInfo.validateM at hmem
  rcases List.mem_flatMap.mp hmem with ⟨d, _, hd⟩
  exact domain_validate_field_ne hd rfl

/-- C6 witness: with all three domain lists empty, the base-class validator
produces no violation at all — in particular not the at-least-one-domain
one — and construction succeeds. -/
theorem c6_witness :
    (⟨"ModuleInfo.references", "Modules require at least one domain"⟩ :
      ValidationErrorInfo) ∉ ModuleInfo.validateM ⟨[], [], []⟩ none none ∧
    ModuleInfo.construct [] [] [] none none = .ok ⟨[], [], []⟩ :=
  ⟨c6_main.1 [] [] [] none none, c6_main.2.1 none none⟩

/-- C1 counterexample: converting a legacy NRPS gene whose module's substrate
specificity evidence is `["Sequence-based prediction"]` succeeds and emits a
module whose Adenylation evidence list contains that method. -/
theorem c1_counterexample : nrpsConversionHasSbp [c1Gene] = true := by decide

/-- C3: the changelog reconstruction does NOT fail on these mismatched
parallel arrays.  First input: timestamps and comments both have length 2 and
contributors has length 3, so the chained comparison skips the check and
`zip` silently drops the third contributor.  Second input: a no-timestamp
entry with 3 contributors and 2 comments whose first comment is not
`"Submitted"` matches none of the heuristics, yet falls through to a release
with zero entries instead of raising. -/
theorem c3_main :
    convertChangelog [c3Entry] =
      .ok ([⟨⟨"1"⟩, some "2019-10-16",
            [⟨[⟨subA⟩], [⟨subB⟩], "2019-10-16", "Submitted"⟩]⟩],
           [{ comments := ["Submitted"], contributors := [subA, subC],
              mibigVersion := "2.0",
              timestamps := ["2019-10-16T09:00:00", "2019-10-16T10:00:00"] }]) ∧
    convertChangelog [c3EntryB] =
      .ok ([⟨⟨"1"⟩, some "2019-10-16", []⟩], [c3EntryB]) := by
  constructor <;> decide

/-- C4: on the heuristic-7 pattern the reconstruction produces ONLY the two
sentinel-attributed entries for `comments[:-1]` (including "Submitted"): the
entry attributing "Submitted" to the first contributor and the entry
attributing the last comment to the last contributor are constructed but never
appended. -/
theorem c4_main :
    convertChangelog [c4Entry] =
      .ok ([⟨⟨"1"⟩, some "2019-10-16",
            [⟨[mibigUser], [mibigUser], "2019-10-16", "Submitted"⟩,
             ⟨[mibigUser], [mibigUser], "2019-10-16", "a"⟩]⟩],
           [c4Entry]) := by decide

/-- C8 counterexample: processing a timestamps entry that contains a
review-message comment deletes that comment and its contributor from the
legacy entry's arrays in place — the post-call entry differs from the
original. -/
theorem c8_counterexample :
    convertChangelog [c8Entry] =
      .ok ([⟨⟨"1"⟩, some "2019-10-16",
            [⟨[⟨subA⟩], [⟨subB⟩], "2019-10-16", "foo"⟩]⟩],
           [{ comments := ["foo"], contributors := [subA], mibigVersion := "2.0",
              timestamps := ["2019-10-16T09:00:00", "2019-10-16T10:00:00"] }]) ∧
    ({ comments := ["foo"], contributors := [subA], mibigVersion := "2.0",
       timestamps := ["2019-10-16T09:00:00", "2019-10-16T10:00:00"] } : ChangeEntry) ≠
      c8Entry := by
  constructor <;> decide

/-- C2 counterexample: an `Evidence` wire payload with an explicit empty
`"references"` list decodes without error, but re-encoding the decoded value
omits the key, so `encode(decode(raw)) ≠ raw`. -/
theorem c2_counterexample :
    Evidence.fromJson ⟨"Sequence-based prediction", some []⟩ none =
      .ok ⟨"Sequence-based prediction", []⟩ ∧
    Evidence.toJson ⟨"Sequence-based prediction", []⟩ ≠
      ⟨"Sequence-based prediction", some []⟩ := by
  constructor <;> decide

/-- C2 (amended): `decode(encode(x)) = x` holds for every successfully
validated `Citation`, `Location` (under the same quality context),
`SubmitterID`, `ReleaseVersion`, and `Evidence` (whose stored references are
deduplicated and individually valid); `encode(decode(raw)) = raw` holds for
every decodable raw of the primitive types, and for `Evidence` exactly on
canonical raws — the `references` key absent rather than an explicit empty
list, and duplicate-free; other raws decode successfully but re-encode to the
canonical form. -/
theorem c2_main :
    (∀ c : Citation, c.validate = [] →
      Citation.fromJson (Citation.toJson c) = .ok c) ∧
    (∀ (raw : String) (c : Citation), Citation.fromJson raw = .ok c →
      Citation.toJson c = raw) ∧
    (∀ (loc : Location) (q : Option QualityLevel), loc.validate none none q = [] →
      Location.fromJson loc.toJson q = .ok loc) ∧
    (∀ (raw : LocationJson) (q : Option QualityLevel) (loc : Location),
      Location.fromJson raw q = .ok loc → loc.toJson = raw) ∧
    (∀ s : SubmitterID, s.validate = [] → SubmitterID.fromJson s.toJson = .ok s) ∧
    (∀ (raw : String) (s : SubmitterID), SubmitterID.fromJson raw = .ok s →
      s.toJson = raw) ∧
    (∀ v : ReleaseVersion, v.validate = [] →
      ReleaseVersion.fromJson v.toJson = .ok v) ∧
    (∀ (raw : String) (v : ReleaseVersion), ReleaseVersion.fromJson raw = .ok v →
      v.toJson = raw) ∧
    (∀ (ev : Evidence) (q : Option QualityLevel), ev.validate q = [] →
      ev.references.Nodup → (∀ c ∈ ev.references, c.validate = []) →
      Evidence.fromJson ev.toJson q = .ok ev) ∧
    (∀ (raw : EvidenceJson) (q : Option QualityLevel) (ev : Evidence),
      Evidence.fromJson raw q = .ok ev →
      (raw.references = none ∨ ∃ l, raw.references = some l ∧ l ≠ [] ∧ l.Nodup) →
      ev.toJson = raw) :=
  ⟨fun _ h => citation_roundtrip_decode h,
   fun _ _ h => citation_roundtrip_encode h,
   fun _ _ h => location_roundtrip_decode h,
   fun _ _ _ h => location_roundtrip_encode h,
   fun _ h => submitter_roundtrip_decode h,
   fun _ _ h => submitter_roundtrip_encode h,
   fun _ h => releaseVersion_roundtrip_decode h,
   fun _ _ h => releaseVersion_roundtrip_encode h,
   fun _ _ h1 h2 h3 => evidence_roundtrip_decode h1 h2 h3,
   fun _ _ _ h1 h2 => evidence_roundtrip_encode h1 h2⟩

/-- C2 witness: concrete round trips through the amended theorem. -/
theorem c2_witness :
    Citation.fromJson (Citation.toJson ⟨"pubmed", "123"⟩) = .ok ⟨"pubmed", "123"⟩ ∧
    Evidence.fromJson (Evidence.toJson ⟨"Sequence-based prediction", []⟩) none =
      .ok ⟨"Sequence-based prediction", []⟩ :=
  ⟨c2_main.1 ⟨"pubmed", "123"⟩ (by decide),
   c2_main.2.2.2.2.2.2.2.2.1 ⟨"Sequence-based prediction", []⟩ none (by decide)
     (by decide) (by decide)⟩

/-- A successful `OperonEvidence.construct` keeps the method verbatim. -/
theorem operonEvidence_construct_method {ev : String} {refs : List Citation}
    {q : Option QualityLevel} {r : OperonEvidence}
    (h : OperonEvidence.construct ev refs q = .ok r) : r.method = ev := by
  simp only [OperonEvidence.construct] at h
  split at h
  · cases h; rfl
  · cases h

/-- A successful `GTEvidence.construct` keeps the method verbatim. -/
theorem gtEvidence_construct_method {ev : String} {refs : List Citation}
    {q : Option QualityLevel} {r : GTEvidence}
    (h : GTEvidence.construct ev refs q = .ok r) : r.method = ev := by
  simp only [GTEvidence.construct] at h
  split at h
  · cases h; rfl
  · cases h

/-- The per-evidence body of the gene-annotation substrate loop keeps the
method verbatim. -/
theorem genesSubstrateEvidence_method {pubs : List Publication}
    {q : Option QualityLevel} {ev : String} {e : SubstrateEvidence}
    (h : (do
        let refs ← pubs.mapM
          (fun p : Publication => Citation.construct p.category p.content)
        SubstrateEvidence.construct ev refs q) = .ok e) :
    e.method = ev := by
  cases hm : pubs.mapM (fun p : Publication => Citation.construct p.category p.content) with
  | error er => rw [hm] at h; simp [Bind.bind, Except.bind] at h
  | ok refs =>
    rw [hm] at h
    simp only [Bind.bind, Except.bind] at h
    exact substrateEvidence_construct_method h

/-- C1 (amended): the `"Sequence-based prediction"` filter holds for operon,
glycosyltransferase, and gene-annotation substrate evidence; the non-canonical
activity conversion produces no evidence list at all whenever non-canonical
data is present (its entity constructors reject the converter's `quality`
keyword — a `TypeError`); and the NRPS module substrate-evidence conversion
does NOT filter: its evidence methods are the legacy evidence strings
verbatim, so the prediction sentinel survives there. -/
theorem c1_main :
    (∀ (evs : List String) (q : Option QualityLevel) (res : List OperonEvidence),
      convertOperonEvidence evs q = .ok res →
        ∀ e ∈ res, e.method ≠ "Sequence-based prediction") ∧
    (∀ (evs : List String) (q : Option QualityLevel) (res : List GTEvidence),
      convertGtEvidence evs q = .ok res →
        ∀ e ∈ res, e.method ≠ "Sequence-based prediction") ∧
    (∀ (subs : List GeneDomainSubstrate) (q : Option QualityLevel)
        (res : List SubstrateEvidence),
      convertGenesSubstrateEvidence subs q = .ok res →
        ∀ e ∈ res, e.method ≠ "Sequence-based prediction") ∧
    (∀ nc : NonCanonical, convertNcActivity (some nc) =
      .error (.typeError "unexpected keyword argument quality")) ∧
    (∀ (spec : Specificity) (q : Option QualityLevel) (res : List SubstrateEvidence),
      convertNrpsSubstrateEvidence spec q = .ok res →
        res.map SubstrateEvidence.method = spec.evidence) := by
  refine ⟨?_, ?_, ?_, fun _ => rfl, ?_⟩
  · intro evs q res h e he
    obtain ⟨a, ha, hfa⟩ := exceptMapM_ok_mem h e he
    rw [operonEvidence_construct_method hfa]
    exact of_decide_eq_true (List.mem_filter.mp ha).2
  · intro evs q res h e he
    obtain ⟨a, ha, hfa⟩ := exceptMapM_ok_mem h e he
    rw [gtEvidence_construct_method hfa]
    exact of_decide_eq_true (List.mem_filter.mp ha).2
  · intro subs q res h e he
    unfold convertGenesSubstrateEvidence at h
    cases hm : subs.mapM (genesSubstrateEvidenceOne q) with
    | error er => rw [hm] at h; simp [Bind.bind, Except.bind] at h
    | ok lists =>
      rw [hm] at h
      simp only [Bind.bind, Except.bind, pure, Except.pure, Except.ok.injEq] at h
      subst h
      obtain ⟨l, hl, hel⟩ := List.mem_flatten.mp he
      obtain ⟨sub, _, hfs⟩ := exceptMapM_ok_mem hm l hl
      unfold genesSubstrateEvidenceOne at hfs
      obtain ⟨ev, hev, hfe⟩ := exceptMapM_ok_mem hfs e hel
      rw [genesSubstrateEvidence_method hfe]
      exact of_decide_eq_true (List.mem_filter.mp hev).2
  · intro spec q res h
    unfold convertNrpsSubstrateEvidence at h
    cases hm : spec.evidence.mapM (fun ev => SubstrateEvidence.construct ev [] q) with
    | error er => rw [hm] at h; simp [Bind.bind, Except.bind] at h
    | ok evidence =>
      rw [hm] at h
      simp only [Bind.bind, Except.bind] at h
      have hmeth := substrateEvidence_mapM_methods hm
      generalize hp : spec.publications = pubs at h
      match evidence, pubs, h with
      | [], _, h =>
        simp only [pure, Except.pure, Except.ok.injEq] at h
        subst h
        simpa using hmeth
      | [e], [], h =>
        simp only [pure, Except.pure, Except.ok.injEq] at h
        subst h
        simpa using hmeth
      | [e], p :: ps, h =>
        dsimp only at h
        cases hr : (p :: ps).mapM (fun qq : Publication =>
            Citation.construct qq.category qq.content) with
        | error er => rw [hr] at h; simp at h
        | ok refs =>
          rw [hr] at h
          simp only [pure, Except.pure, Except.ok.injEq] at h
          subst h
          simpa using hmeth
      | e1 :: e2 :: rest, _, h =>
        simp only [pure, Except.pure, Except.ok.injEq] at h
        subst h
        simpa using hmeth

/-- C1 witness: the operon filter drops the prediction entry and keeps RACE,
whose method therefore differs from the sentinel. -/
theorem c1_witness :
    convertOperonEvidence ["Sequence-based prediction", "RACE"] (some .questionable) =
      .ok [⟨"RACE", []⟩] ∧
    (⟨"RACE", []⟩ : OperonEvidence).method ≠ "Sequence-based prediction" :=
  ⟨by decide,
   c1_main.1 ["Sequence-based prediction", "RACE"] (some .questionable)
     [⟨"RACE", []⟩] (by decide) ⟨"RACE", []⟩ (by decide)⟩

theorem stripReviews_no_review :
    ∀ (cs ps : List String), (∀ m ∈ cs, m ∉ REVIEW_MESSAGES) →
      stripReviews cs ps = (cs, ps, []) := by
  intro cs
  induction cs with
  | nil => intro ps _; cases ps <;> rfl
  | cons c cst ih =>
    intro ps h
    cases ps with
    | nil => rfl
    | cons p pst =>
      have hc : c ∉ REVIEW_MESSAGES := h c (List.mem_cons_self c cst)
      simp only [stripReviews, if_neg hc]
      rw [ih pst (fun m hm => h m (List.mem_cons_of_mem _ hm))]

/-- Binding a value and pairing it with a fixed second component: on success
the second component is that fixed value. -/
theorem exceptPairSnd1 {ε β γ : Type} {x : Except ε β} {z : γ} {res : β × γ}
    (h : (do let b ← x; pure (b, z)) = Except.ok res) : res.2 = z := by
  cases hx : x with
  | error er => rw [hx] at h; simp [Bind.bind, Except.bind] at h
  | ok b =>
    rw [hx] at h
    simp only [Bind.bind, Except.bind, pure, Except.pure, Except.ok.injEq] at h
    subst h
    rfl

/-- Two successive binds paired with a fixed second component. -/
theorem exceptPairSnd2 {ε α β γ : Type} {x : Except ε α} {g : α → Except ε β}
    {z : γ} {res : β × γ}
    (h : (do let a ← x; let b ← g a; pure (b, z)) = Except.ok res) : res.2 = z := by
  cases hx : x with
  | error er => rw [hx] at h; simp [Bind.bind, Except.bind] at h
  | ok a =>
    rw [hx] at h
    simp only [Bind.bind, Except.bind] at h
    exact exceptPairSnd1 h

theorem convertReleaseEntries_noTs {d : Option String} {e : ChangeEntry}
    {res : List ReleaseEntry × ChangeEntry} (hts : e.timestamps = [])
    (h : convertReleaseEntries d e = .ok res) : res.2 = e := by
  unfold convertReleaseEntries at h
  have hcond : ¬(e.timestamps ≠ []) := by simp [hts]
  rw [if_neg hcond] at h
  exact exceptPairSnd1 h

theorem convertReleaseEntries_no_review {d : Option String} {e : ChangeEntry}
    {res : List ReleaseEntry × ChangeEntry}
    (hno : ∀ m ∈ e.comments, m ∉ REVIEW_MESSAGES)
    (h : convertReleaseEntries d e = .ok res) : res.2 = e := by
  by_cases hts : e.timestamps = []
  · exact convertReleaseEntries_noTs hts h
  · unfold convertReleaseEntries at h
    rw [if_pos hts] at h
    split at h
    · cases h
    · rw [stripReviews_no_review e.comments e.contributors hno] at h
      have hz := exceptPairSnd2 h
      rw [hz]

/-- Destructuring a successful `Except` bind. -/
theorem exceptBind_ok {ε α β : Type} {x : Except ε α} {g : α → Except ε β} {r : β}
    (h : (x >>= g) = Except.ok r) : ∃ a, x = Except.ok a ∧ g a = Except.ok r := by
  cases hx : x with
  | error er => rw [hx] at h; simp [Bind.bind, Except.bind] at h
  | ok a =>
    rw [hx] at h
    exact ⟨a, rfl, by simpa [Bind.bind, Except.bind] using h⟩

/-- A successful `convertChangelogEntry` factors through
`convertReleaseEntries`, whose post-state it returns. -/
theorem convertChangelogEntry_snd {i : Nat} {e : ChangeEntry}
    {res : Release × ChangeEntry}
    (h : convertChangelogEntry i e = .ok res) :
    ∃ d r, convertReleaseEntries d e = .ok r ∧ res.2 = r.2 := by
  unfold convertChangelogEntry at h
  obtain ⟨vinfo, hv, h⟩ := exceptBind_ok h
  obtain ⟨version, hrv, h⟩ := exceptBind_ok h
  obtain ⟨r, hce, h⟩ := exceptBind_ok h
  obtain ⟨rel, hrel, h⟩ := exceptBind_ok h
  simp only [pure, Except.pure, Except.ok.injEq] at h
  subst h
  exact ⟨vinfo.1, r, hce, rfl⟩

/-- C8 (amended): the changelog conversion leaves a legacy entry's arrays
unchanged whenever the entry has no timestamps, and also whenever none of its
comments is one of the canned review messages; only the timestamps branch with
a review-message comment mutates the decoded legacy input in place (deleting
the review line and its contributor), as exhibited by the counterexample. -/
theorem c8_main :
    (∀ (i : Nat) (e : ChangeEntry) (res : Release × ChangeEntry),
      e.timestamps = [] → convertChangelogEntry i e = .ok res → res.2 = e) ∧
    (∀ (i : Nat) (e : ChangeEntry) (res : Release × ChangeEntry),
      (∀ m ∈ e.comments, m ∉ REVIEW_MESSAGES) →
      convertChangelogEntry i e = .ok res → res.2 = e) := by
  constructor
  · intro i e res hts h
    obtain ⟨d, r, hr, hsnd⟩ := convertChangelogEntry_snd h
    rw [hsnd]
    exact convertReleaseEntries_noTs hts hr
  · intro i e res hno h
    obtain ⟨d, r, hr, hsnd⟩ := convertChangelogEntry_snd h
    rw [hsnd]
    exact convertReleaseEntries_no_review hno hr

/-- C8 witness: a no-timestamp entry is returned unmodified. -/
theorem c8_witness :
    ((⟨⟨"1"⟩, some "2019-10-16",
        [⟨[⟨subA⟩], [mibigUser], "2019-10-16", "x"⟩]⟩,
      (⟨["x"], [subA], "2.0", []⟩ : ChangeEntry)) :
        Release × ChangeEntry).2 = ⟨["x"], [subA], "2.0", []⟩ :=
  c8_main.1 0 ⟨["x"], [subA], "2.0", []⟩ _ (by decide) (by decide)

end Mibig
